import Mathlib

/-!
Verification development for the `openai` Go package: a collection of thin
HTTP client wrappers over the OpenAI REST API (files, vector stores, threads,
runs, assistants, messages, embeddings).

The embedding models each Go source file as a Lean namespace.  Pure data flow
is translated directly; interaction with the outside world (the file system
and the HTTP transport) is made explicit:

* the file system is a function `String → Option (List Nat)` giving the byte
  content of a path (`none` models a read error);
* one invocation of a client function receives a `NetResult` — what
  `http.Client.Do` (or the SDK call) would produce if a request were sent —
  and returns its Go result together with the list of requests it actually
  sent, so that properties such as "no request is sent on early error" and
  "at most one request per invocation" are statable.

JSON documents are modelled by the inductive `Json`; Go `interface` values
that can flow into `encoding/json` are modelled by `GoValue` (whose `func`
constructor stands for the non-serializable Go values, e.g. functions and
channels, on which `json.Marshal` fails).  Go error values are modelled by
`GoError`, one constructor per kind of error site, carrying the format
string written at that site in the source.
-/

set_option maxRecDepth 10000

namespace GoOpenAI

/-- A JSON document, as produced by parsing an HTTP response body. -/
inductive Json where
  | null
  | bool (b : Bool)
  | num (n : Int)
  | str (s : String)
  | arr (elems : List Json)
  | obj (fields : List (String × Json))
deriving Repr

/-- A Go `interface` value as far as `encoding/json` is concerned.
`func` stands for the values `json.Marshal` rejects (functions, channels,
complex numbers); all other constructors are serializable. -/
inductive GoValue where
  | null
  | bool (b : Bool)
  | num (n : Int)
  | str (s : String)
  | arr (elems : List GoValue)
  | map (fields : List (String × GoValue))
  | func
deriving Repr

mutual

/-- Go `json.Unmarshal` into an `interface` value: total on parsed JSON
(objects become maps, arrays become slices, scalars become themselves). -/
def decodeGoValue : Json → GoValue
  | .null => .null
  | .bool b => .bool b
  | .num n => .num n
  | .str s => .str s
  | .arr xs => .arr (decodeGoValueList xs)
  | .obj fs => .map (decodeGoValueFields fs)

/-- Elementwise `decodeGoValue` on a JSON array. -/
def decodeGoValueList : List Json → List GoValue
  | [] => []
  | x :: xs => decodeGoValue x :: decodeGoValueList xs

/-- Elementwise `decodeGoValue` on the fields of a JSON object. -/
def decodeGoValueFields : List (String × Json) → List (String × GoValue)
  | [] => []
  | (k, v) :: fs => (k, decodeGoValue v) :: decodeGoValueFields fs

end

/-- Insert a key/value pair into a key-sorted field list (Go's
`encoding/json` emits map keys in sorted order). -/
def insertField (kv : String × Json) : List (String × Json) → List (String × Json)
  | [] => [kv]
  | (k, v) :: fs =>
    if kv.fst ≤ k then kv :: (k, v) :: fs else (k, v) :: insertField kv fs

/-- Sort an object's fields by key, as Go does when marshalling a map. -/
def sortFields : List (String × Json) → List (String × Json)
  | [] => []
  | kv :: fs => insertField kv (sortFields fs)

mutual

/-- Go `json.Marshal` of an `interface` value; fails (returns `none`)
exactly when the value contains a non-serializable component. -/
def marshalGoValue : GoValue → Option Json
  | .null => some .null
  | .bool b => some (.bool b)
  | .num n => some (.num n)
  | .str s => some (.str s)
  | .arr xs => (marshalGoValueList xs).map .arr
  | .map fs => (marshalGoValueFields fs).map (fun l => .obj (sortFields l))
  | .func => none

/-- Elementwise `marshalGoValue` over a slice. -/
def marshalGoValueList : List GoValue → Option (List Json)
  | [] => some []
  | x :: xs =>
    match marshalGoValue x, marshalGoValueList xs with
    | some j, some js => some (j :: js)
    | _, _ => none

/-- Elementwise `marshalGoValue` over a map's entries. -/
def marshalGoValueFields : List (String × GoValue) → Option (List (String × Json))
  | [] => some []
  | (k, v) :: fs =>
    match marshalGoValue v, marshalGoValueFields fs with
    | some j, some js => some ((k, j) :: js)
    | _, _ => none

end

/-- One part of a `mime/multipart` form body, at the level of the structure
the `multipart.Writer` API builds: either a plain form field or a file part
with a field name, a file name and the file's bytes. -/
inductive MultipartPart where
  | field (name value : String)
  | file (fieldName fileName : String) (content : List Nat)
deriving Repr

/-- The body attached to an outgoing HTTP request. -/
inductive ReqBody where
  | empty
  | json (payload : Json)
  | multipart (parts : List MultipartPart)
deriving Repr

/-- An outgoing HTTP request, as assembled by a client function: method,
URL (including any query string the source concatenates into it), query
parameters added through `url.Values`, headers in the order the source
sets them, and the body. -/
structure Request where
  method : String
  url : String
  query : List (String × String)
  headers : List (String × String)
  body : ReqBody
deriving Repr

/-- A request sent by one invocation: either a plain HTTP request through
`http.Client.Do`, or a call into the `go-openai` SDK (which performs the
HTTP exchange internally). -/
inductive Sent where
  | http (req : Request)
  | sdk (call : String)
deriving Repr

/-- An HTTP response as observed by the client code: the numeric status
code, the status line text used in error messages, and the body (already
parsed as JSON; decoding failures are then shape mismatches). -/
structure HttpResp where
  statusCode : Nat
  status : String
  body : Json
deriving Repr

/-- Outcome of handing a request to the transport: either a transport-level
error (`client.Do` returns a non-nil error) or a response. -/
inductive NetResult where
  | transportError
  | success (resp : HttpResp)
deriving Repr

/-- A Go error value.  `errorf` carries the format string written at the
`fmt.Errorf` call site; `statusError` is the particular shape
`fmt.Errorf("... %s: %s", resp.Status, body)` every wrapper uses when the
status check fails; `unsupportedFileType` is the custom error type in the
vector-store-file source. -/
inductive GoError where
  | errorf (format : String)
  | statusError (format : String) (status : String) (body : Json)
  | unsupportedFileType (fileName : String)
deriving Repr

/-- `true` iff a Go `(result, error)` pair has a nil error. -/
def isOk {α : Type} : Except GoError α → Bool
  | .ok _ => true
  | .error _ => false

/-- `true` iff the result is the error produced by a failed HTTP status
check (as opposed to a transport, marshalling, validation or decode error). -/
def isStatusError {α : Type} : Except GoError α → Bool
  | .error (.statusError _ _ _) => true
  | _ => false

/-- The package-level API key.  It is defined outside the provided sources
(configuration); its value is irrelevant to every property proved here. -/
def openaiAPIKey : String := "OPENAI_API_KEY"

/-! ## crypto/sha1 and encoding/hex

`CreateEmbedding` and `CreateVectorForFile` derive their returned IDs from
`sha1.Sum` and `hex.EncodeToString`; these are embedded concretely (FIPS
180-1 SHA-1 over byte lists, lowercase hex). -/

/-- `2 ^ 32`, the modulus of 32-bit words. -/
def w32 : Nat := 4294967296

/-- Rotate a 32-bit word left by `n` bits. -/
def rotl (n x : Nat) : Nat :=
  Nat.lor ((x <<< n) % w32) (x >>> (32 - n))

/-- Big-endian 32-bit word from four bytes. -/
def wordOfBytes (b0 b1 b2 b3 : Nat) : Nat :=
  b0 * 16777216 + b1 * 65536 + b2 * 256 + b3

/-- SHA-1 padding: append `0x80`, zeros to 56 mod 64, then the bit length
as a big-endian 64-bit integer. -/
def sha1Pad (msg : List Nat) : List Nat :=
  let len := msg.length
  let zeros := (55 + 64 - len % 64) % 64
  let bitLen := 8 * len
  msg ++ [128] ++ List.replicate zeros 0 ++
    [bitLen / 2 ^ 56 % 256, bitLen / 2 ^ 48 % 256, bitLen / 2 ^ 40 % 256,
     bitLen / 2 ^ 32 % 256, bitLen / 2 ^ 24 % 256, bitLen / 2 ^ 16 % 256,
     bitLen / 2 ^ 8 % 256, bitLen % 256]

/-- Group bytes into big-endian 32-bit words. -/
def toWords : List Nat → List Nat
  | b0 :: b1 :: b2 :: b3 :: rest => wordOfBytes b0 b1 b2 b3 :: toWords rest
  | _ => []

/-- Extend the 16 block words to the 80-word message schedule. -/
def sha1Schedule : Nat → List Nat → List Nat
  | 0, ws => ws
  | n + 1, ws =>
    let w16 := ws.getD (ws.length - 16) 0
    let w14 := ws.getD (ws.length - 14) 0
    let w8 := ws.getD (ws.length - 8) 0
    let w3 := ws.getD (ws.length - 3) 0
    sha1Schedule n (ws ++ [rotl 1 (Nat.xor (Nat.xor (Nat.xor w3 w8) w14) w16)])

/-- The five 32-bit chaining words of SHA-1. -/
structure Sha1State where
  h0 : Nat
  h1 : Nat
  h2 : Nat
  h3 : Nat
  h4 : Nat
deriving Repr

/-- The SHA-1 initialization vector. -/
def sha1Init : Sha1State :=
  ⟨1732584193, 4023233417, 2562383102, 271733878, 3285377520⟩

/-- The SHA-1 round function, by round index. -/
def sha1F (t b c d : Nat) : Nat :=
  if t < 20 then Nat.lor (Nat.land b c) (Nat.land (w32 - 1 - b) d)
  else if t < 40 then Nat.xor (Nat.xor b c) d
  else if t < 60 then Nat.lor (Nat.lor (Nat.land b c) (Nat.land b d)) (Nat.land c d)
  else Nat.xor (Nat.xor b c) d

/-- The SHA-1 round constants, by round index. -/
def sha1K (t : Nat) : Nat :=
  if t < 20 then 1518500249
  else if t < 40 then 1859775393
  else if t < 60 then 2400959708
  else 3395469782

/-- Run the remaining SHA-1 rounds starting at round `t`. -/
def sha1Rounds : Nat → Nat → List Nat → Nat × Nat × Nat × Nat × Nat →
    Nat × Nat × Nat × Nat × Nat
  | 0, _, _, st => st
  | n + 1, t, ws, (a, b, c, d, e) =>
    let w := ws.getD t 0
    let temp := (rotl 5 a + sha1F t b c d + e + sha1K t + w) % w32
    sha1Rounds n (t + 1) ws (temp, a, rotl 30 b, c, d)

/-- Compress one 64-byte block into the chaining state. -/
def sha1Block (st : Sha1State) (block : List Nat) : Sha1State :=
  let ws := sha1Schedule 64 (toWords block)
  let (a, b, c, d, e) := sha1Rounds 80 0 ws (st.h0, st.h1, st.h2, st.h3, st.h4)
  ⟨(st.h0 + a) % w32, (st.h1 + b) % w32, (st.h2 + c) % w32,
   (st.h3 + d) % w32, (st.h4 + e) % w32⟩

/-- Compress successive 64-byte blocks; the fuel is an upper bound on the
byte count, so with `fuel = bytes.length` every block is consumed. -/
def sha1Blocks : Nat → List Nat → Sha1State → Sha1State
  | 0, _, st => st
  | _, [], st => st
  | fuel + 1, bytes, st => sha1Blocks fuel (bytes.drop 64) (sha1Block st (bytes.take 64))

/-- Lowercase hexadecimal digit. -/
def hexDigit (n : Nat) : Char :=
  if n < 10 then Char.ofNat (48 + n) else Char.ofNat (87 + n)

/-- Two lowercase hex characters of a byte. -/
def byteHex (b : Nat) : List Char := [hexDigit (b / 16 % 16), hexDigit (b % 16)]

/-- Big-endian bytes of a 32-bit word. -/
def wordBytes (w : Nat) : List Nat :=
  [w / 2 ^ 24 % 256, w / 2 ^ 16 % 256, w / 2 ^ 8 % 256, w % 256]

/-- `hex.EncodeToString(sha1 digest)`: the lowercase hexadecimal SHA-1
digest of a byte sequence, as the embeddings source computes it. -/
def sha1Hex (msg : List Nat) : String :=
  let padded := sha1Pad msg
  let st := sha1Blocks padded.length padded sha1Init
  String.mk ((wordBytes st.h0 ++ wordBytes st.h1 ++ wordBytes st.h2 ++
              wordBytes st.h3 ++ wordBytes st.h4).flatMap byteHex)

/-- The bytes of an ASCII string, for concrete test inputs. -/
def strBytes (s : String) : List Nat := s.toList.map Char.toNat

/-- Go `strings.HasSuffix`: `s` ends with `suffix`. -/
def hasSuffix (s suffix : String) : Bool :=
  s.data.drop (s.data.length - suffix.data.length) == suffix.data

/-- Go `strings.TrimSuffix s suffix` in the case the suffix is present:
`s` without its last `suffix.length` characters. -/
def trimSuffix (s suffix : String) : String :=
  String.mk (s.data.take (s.data.length - suffix.data.length))

/-! ## files.go — file upload, list, retrieve, delete -/

namespace FilesA

/-- `File` (files.go): holds response data for a file upload. -/
structure File where
  ID : String
  CreatedAt : Int
  Bytes : Int
  FileName : String
  Purpose : String
deriving Repr

/-- The Go zero value of `File`. -/
def zeroFile : File := ⟨"", 0, 0, "", ""⟩

/-- One step of `encoding/json` decoding into `File`: a known key updates
the field (JSON `null` leaves it), a value of the wrong type fails, an
unknown key is ignored. -/
def fileStep (f : File) : String × Json → Option File
  | ("id", .str s) => some { f with ID := s }
  | ("id", .null) => some f
  | ("id", _) => none
  | ("created_at", .num n) => some { f with CreatedAt := n }
  | ("created_at", .null) => some f
  | ("created_at", _) => none
  | ("bytes", .num n) => some { f with Bytes := n }
  | ("bytes", .null) => some f
  | ("bytes", _) => none
  | ("filename", .str s) => some { f with FileName := s }
  | ("filename", .null) => some f
  | ("filename", _) => none
  | ("purpose", .str s) => some { f with Purpose := s }
  | ("purpose", .null) => some f
  | ("purpose", _) => none
  | (_, _) => some f

/-- `json.Decode` into a `File`: an object is folded field by field
(later duplicate keys overwrite), `null` leaves the zero value, any other
document is a type mismatch. -/
def decodeFile : Json → Option File
  | .obj fs => fs.foldlM fileStep zeroFile
  | .null => some zeroFile
  | _ => none

/-- One step of decoding the anonymous response struct
`struct ... Data []File ...` of `ListFiles`. -/
def fileDataStep (d : List File) : String × Json → Option (List File)
  | ("data", .arr xs) => xs.mapM decodeFile
  | ("data", .null) => some d
  | ("data", _) => none
  | (_, _) => some d

/-- `json.Decode` into `ListFiles`'s anonymous `Data []File` wrapper. -/
def decodeFileList : Json → Option (List File)
  | .obj fs => fs.foldlM fileDataStep []
  | .null => some []
  | _ => none

/-- The multipart form `UploadContent` assembles: the `purpose` field with
value `user_data`, then the file part named `file` whose filename is `path`
and whose bytes are `content`. -/
def uploadContentParts (path : String) (content : List Nat) : List MultipartPart :=
  [.field "purpose" "user_data", .file "file" path content]

/-- The request `UploadContent` builds (the multipart writer's random
boundary parameter of the Content-Type header is not modelled). -/
def uploadContentRequest (path : String) (content : List Nat) : Request :=
  { method := "POST"
    url := "https://api.openai.com/v1/files"
    query := []
    headers := [("Authorization", "Bearer " ++ openaiAPIKey),
                ("Content-Type", "multipart/form-data")]
    body := .multipart (uploadContentParts path content) }

/-- `UploadContent` (files.go): posts `content` as a multipart form and
returns the uploaded file's ID decoded from the response. -/
def UploadContent (path : String) (content : List Nat) (net : NetResult) :
    Except GoError String × List Sent :=
  let req := uploadContentRequest path content
  match net with
  | .transportError => (.error (.errorf "request failed: %w"), [.http req])
  | .success resp =>
    if resp.statusCode ≠ 200 then
      (.error (.statusError "upload failed with status %s: %s" resp.status resp.body),
       [.http req])
    else
      match decodeFile resp.body with
      | none => (.error (.errorf "failed to decode response: %w"), [.http req])
      | some f => (.ok f.ID, [.http req])

/-- `UploadFile` (files.go): reads the file at `path`, renames a `.tsx`
path to `.ts`, and delegates to `UploadContent`. -/
def UploadFile (fs : String → Option (List Nat)) (path : String) (net : NetResult) :
    Except GoError String × List Sent :=
  match fs path with
  | none => (.error (.errorf "failed to read file: %w"), [])
  | some content =>
    let path := if hasSuffix path ".tsx" then trimSuffix path ".tsx" ++ ".ts" else path
    UploadContent path content net

/-- The request `ListFiles` builds. -/
def listFilesRequest : Request :=
  { method := "GET"
    url := "https://api.openai.com/v1/files"
    query := []
    headers := [("Authorization", "Bearer " ++ openaiAPIKey)]
    body := .empty }

/-- `ListFiles` (files.go): retrieves the list of uploaded files. -/
def ListFiles (net : NetResult) : Except GoError (List File) × List Sent :=
  let req := listFilesRequest
  match net with
  | .transportError => (.error (.errorf "request failed: %w"), [.http req])
  | .success resp =>
    if resp.statusCode ≠ 200 then
      (.error (.statusError "retrieving files failed with status %s: %s"
          resp.status resp.body), [.http req])
    else
      match decodeFileList resp.body with
      | none => (.error (.errorf "failed to decode response: %w"), [.http req])
      | some l => (.ok l, [.http req])

/-- The request `RetrieveFile` builds. -/
def retrieveFileRequest (fileID : String) : Request :=
  { method := "GET"
    url := "https://api.openai.com/v1/files/" ++ fileID
    query := []
    headers := [("Authorization", "Bearer " ++ openaiAPIKey),
                ("Content-Type", "application/json")]
    body := .empty }

/-- `RetrieveFile` (files.go): retrieves one file's metadata by ID. -/
def RetrieveFile (fileID : String) (net : NetResult) :
    Except GoError File × List Sent :=
  let req := retrieveFileRequest fileID
  match net with
  | .transportError => (.error (.errorf "file retrieval request failed: %w"), [.http req])
  | .success resp =>
    if resp.statusCode ≠ 200 then
      (.error (.statusError "file retrieval failed with status %s: %s"
          resp.status resp.body), [.http req])
    else
      match decodeFile resp.body with
      | none => (.error (.errorf "failed to decode file retrieval response: %w"), [.http req])
      | some f => (.ok f, [.http req])

/-- The request `DeleteFile` builds. -/
def deleteFileRequest (fileID : String) : Request :=
  { method := "DELETE"
    url := "https://api.openai.com/v1/files/" ++ fileID
    query := []
    headers := [("Authorization", "Bearer " ++ openaiAPIKey)]
    body := .empty }

/-- `DeleteFile` (files.go): deletes a file by ID; returns only an error. -/
def DeleteFile (fileID : String) (net : NetResult) :
    Except GoError Unit × List Sent :=
  let req := deleteFileRequest fileID
  match net with
  | .transportError => (.error (.errorf "delete request failed: %w"), [.http req])
  | .success resp =>
    if resp.statusCode ≠ 200 then
      (.error (.statusError "file deletion failed with status %s: %s"
          resp.status resp.body), [.http req])
    else
      (.ok (), [.http req])

end FilesA

/-! ## files.go — vector store files (attach, list, retrieve, delete) -/

namespace FilesB

/-- The inner error object of `ErrorResponse` (files.go). -/
structure ErrorDetail where
  Message : String
  «Type» : String
  Param : String
  Code : String
deriving Repr

/-- `ErrorResponse` (files.go): the API error envelope, decoded from the
body of a non-200 response by `CreateVectorStoreFile`. -/
structure ErrorResponse where
  Error : ErrorDetail
deriving Repr

/-- The Go zero value of `ErrorDetail`. -/
def zeroErrorDetail : ErrorDetail := ⟨"", "", "", ""⟩

/-- One step of decoding `ErrorDetail`. -/
def errorDetailStep (e : ErrorDetail) : String × Json → Option ErrorDetail
  | ("message", .str s) => some { e with Message := s }
  | ("message", .null) => some e
  | ("message", _) => none
  | ("type", .str s) => some { e with «Type» := s }
  | ("type", .null) => some e
  | ("type", _) => none
  | ("param", .str s) => some { e with Param := s }
  | ("param", .null) => some e
  | ("param", _) => none
  | ("code", .str s) => some { e with Code := s }
  | ("code", .null) => some e
  | ("code", _) => none
  | (_, _) => some e

/-- `json.Unmarshal` into `ErrorDetail`. -/
def decodeErrorDetail : Json → Option ErrorDetail
  | .obj fs => fs.foldlM errorDetailStep zeroErrorDetail
  | .null => some zeroErrorDetail
  | _ => none

/-- One step of decoding `ErrorResponse`. -/
def errorResponseStep (e : ErrorResponse) : String × Json → Option ErrorResponse
  | ("error", .null) => some e
  | ("error", v) => (decodeErrorDetail v).map (fun d => { e with Error := d })
  | (_, _) => some e

/-- `json.Unmarshal` into `ErrorResponse`. -/
def decodeErrorResponse : Json → Option ErrorResponse
  | .obj fs => fs.foldlM errorResponseStep ⟨zeroErrorDetail⟩
  | .null => some ⟨zeroErrorDetail⟩
  | _ => none

/-- `VectorStoreFile` (files.go): the response for attaching a file to a
vector store. -/
structure VectorStoreFile where
  ID : String
  Object : String
  UsageBytes : Int
  CreatedAt : Int
  VectorStoreID : String
  Status : String
  LastError : Option (List (String × GoValue))
  ChunkingStrategy : List (String × GoValue)
deriving Repr

/-- The Go zero value of `VectorStoreFile`. -/
def zeroVectorStoreFile : VectorStoreFile := ⟨"", "", 0, 0, "", "", none, []⟩

/-- One step of decoding `VectorStoreFile`. -/
def vectorStoreFileStep (f : VectorStoreFile) : String × Json → Option VectorStoreFile
  | ("id", .str s) => some { f with ID := s }
  | ("id", .null) => some f
  | ("id", _) => none
  | ("object", .str s) => some { f with Object := s }
  | ("object", .null) => some f
  | ("object", _) => none
  | ("usage_bytes", .num n) => some { f with UsageBytes := n }
  | ("usage_bytes", .null) => some f
  | ("usage_bytes", _) => none
  | ("created_at", .num n) => some { f with CreatedAt := n }
  | ("created_at", .null) => some f
  | ("created_at", _) => none
  | ("vector_store_id", .str s) => some { f with VectorStoreID := s }
  | ("vector_store_id", .null) => some f
  | ("vector_store_id", _) => none
  | ("status", .str s) => some { f with Status := s }
  | ("status", .null) => some f
  | ("status", _) => none
  | ("last_error", .obj gs) => some { f with LastError := some (decodeGoValueFields gs) }
  | ("last_error", .null) => some { f with LastError := none }
  | ("last_error", _) => none
  | ("chunking_strategy", .obj gs) => some { f with ChunkingStrategy := decodeGoValueFields gs }
  | ("chunking_strategy", .null) => some { f with ChunkingStrategy := [] }
  | ("chunking_strategy", _) => none
  | (_, _) => some f

/-- `json.Decode` into a `VectorStoreFile`. -/
def decodeVectorStoreFile : Json → Option VectorStoreFile
  | .obj fs => fs.foldlM vectorStoreFileStep zeroVectorStoreFile
  | .null => some zeroVectorStoreFile
  | _ => none

/-- One step of decoding `VectorStoreFileListResponse`'s `Data` field. -/
def vsfDataStep (d : List VectorStoreFile) : String × Json → Option (List VectorStoreFile)
  | ("data", .arr xs) => xs.mapM decodeVectorStoreFile
  | ("data", .null) => some d
  | ("data", _) => none
  | (_, _) => some d

/-- `json.Decode` into `VectorStoreFileListResponse`. -/
def decodeVectorStoreFileList : Json → Option (List VectorStoreFile)
  | .obj fs => fs.foldlM vsfDataStep []
  | .null => some []
  | _ => none

/-- The standard header triple of the assistants-beta endpoints. -/
def betaHeaders : List (String × String) :=
  [("Authorization", "Bearer " ++ openaiAPIKey),
   ("Content-Type", "application/json"),
   ("OpenAI-Beta", "assistants=v2")]

/-- The request `CreateVectorStoreFile` builds for a marshalled payload. -/
def createVectorStoreFileRequest (vectorStoreID : String) (payload : Json) : Request :=
  { method := "POST"
    url := "https://api.openai.com/v1/vector_stores/" ++ vectorStoreID ++ "/files"
    query := []
    headers := betaHeaders
    body := .json payload }

/-- `CreateVectorStoreFile` (files.go): attaches a file to a vector store.
On a non-200 response it decodes the API error envelope and maps the
`unsupported_file` code to the custom `UnsupportedFileTypeError`. -/
def CreateVectorStoreFile (vectorStoreID fileID : String)
    (chunkingStrategy : List (String × GoValue)) (net : NetResult) :
    Except GoError VectorStoreFile × List Sent :=
  match marshalGoValue (.map [("file_id", .str fileID),
                              ("chunking_strategy", .map chunkingStrategy)]) with
  | none => (.error (.errorf "failed to marshal vector store file payload: %w"), [])
  | some payload =>
    let req := createVectorStoreFileRequest vectorStoreID payload
    match net with
    | .transportError => (.error (.errorf "vector store file request failed: %w"), [.http req])
    | .success resp =>
      if resp.statusCode ≠ 200 then
        match decodeErrorResponse resp.body with
        | none =>
          (.error (.statusError "vector store file creation failed with status %s: %s"
              resp.status resp.body), [.http req])
        | some errorResp =>
          if errorResp.Error.Code = "unsupported_file" then
            (.error (.unsupportedFileType fileID), [.http req])
          else
            (.error (.errorf "vector store file creation failed: %s"), [.http req])
      else
        match decodeVectorStoreFile resp.body with
        | none => (.error (.errorf "failed to decode vector store file response: %w"), [.http req])
        | some v => (.ok v, [.http req])

/-- The request `ListVectorStoreFiles` builds (the `limit=100` query is
concatenated into the URL in the source). -/
def listVectorStoreFilesRequest (vectorStoreID : String) : Request :=
  { method := "GET"
    url := "https://api.openai.com/v1/vector_stores/" ++ vectorStoreID ++ "/files?limit=100"
    query := []
    headers := betaHeaders
    body := .empty }

/-- `ListVectorStoreFiles` (files.go): lists files attached to a vector store. -/
def ListVectorStoreFiles (vectorStoreID : String) (net : NetResult) :
    Except GoError (List VectorStoreFile) × List Sent :=
  let req := listVectorStoreFilesRequest vectorStoreID
  match net with
  | .transportError =>
    (.error (.errorf "list vector store files request failed: %w"), [.http req])
  | .success resp =>
    if resp.statusCode ≠ 200 then
      (.error (.statusError "list vector store files failed with status %s: %s"
          resp.status resp.body), [.http req])
    else
      match decodeVectorStoreFileList resp.body with
      | none =>
        (.error (.errorf "failed to decode list vector store files response: %w"), [.http req])
      | some l => (.ok l, [.http req])

/-- The request `RetrieveVectorStoreFile` builds. -/
def retrieveVectorStoreFileRequest (vectorStoreID fileID : String) : Request :=
  { method := "GET"
    url := "https://api.openai.com/v1/vector_stores/" ++ vectorStoreID ++ "/files/" ++ fileID
    query := []
    headers := betaHeaders
    body := .empty }

/-- `RetrieveVectorStoreFile` (files.go): retrieves one attached file. -/
def RetrieveVectorStoreFile (vectorStoreID fileID : String) (net : NetResult) :
    Except GoError VectorStoreFile × List Sent :=
  let req := retrieveVectorStoreFileRequest vectorStoreID fileID
  match net with
  | .transportError =>
    (.error (.errorf "retrieve vector store file request failed: %w"), [.http req])
  | .success resp =>
    if resp.statusCode ≠ 200 then
      (.error (.statusError "retrieve vector store file failed with status %s: %s"
          resp.status resp.body), [.http req])
    else
      match decodeVectorStoreFile resp.body with
      | none =>
        (.error (.errorf "failed to decode retrieve vector store file response: %w"), [.http req])
      | some v => (.ok v, [.http req])

/-- The request `DeleteVectorStoreFile` builds. -/
def deleteVectorStoreFileRequest (vectorStoreID fileID : String) : Request :=
  { method := "DELETE"
    url := "https://api.openai.com/v1/vector_stores/" ++ vectorStoreID ++ "/files/" ++ fileID
    query := []
    headers := betaHeaders
    body := .empty }

/-- `DeleteVectorStoreFile` (files.go): detaches a file from a vector store. -/
def DeleteVectorStoreFile (vectorStoreID fileID : String) (net : NetResult) :
    Except GoError Unit × List Sent :=
  let req := deleteVectorStoreFileRequest vectorStoreID fileID
  match net with
  | .transportError =>
    (.error (.errorf "delete vector store file request failed: %w"), [.http req])
  | .success resp =>
    if resp.statusCode ≠ 200 then
      (.error (.statusError "delete vector store file failed with status %s: %s"
          resp.status resp.body), [.http req])
    else
      (.ok (), [.http req])

end FilesB

/-! ## files.go — threads -/

namespace FilesC

/-- `Thread` (files.go): the response from creating a thread. -/
structure Thread where
  ID : String
  Object : String
  CreatedAt : Int
  Metadata : List (String × GoValue)
  ToolResources : List (String × GoValue)
deriving Repr

/-- `ThreadMessage` (files.go): a message inside a thread-creation payload. -/
structure ThreadMessage where
  Role : String
  Content : String
deriving Repr

/-- `CreateThreadParams` (files.go). -/
structure CreateThreadParams where
  Messages : List ThreadMessage
  ToolResources : List (String × GoValue)
  VectorStoreIDs : List String
  VectorStores : List (List (String × GoValue))
deriving Repr

/-- The Go zero value of `Thread`. -/
def zeroThread : Thread := ⟨"", "", 0, [], []⟩

/-- One step of decoding `Thread`. -/
def threadStep (t : Thread) : String × Json → Option Thread
  | ("id", .str s) => some { t with ID := s }
  | ("id", .null) => some t
  | ("id", _) => none
  | ("object", .str s) => some { t with Object := s }
  | ("object", .null) => some t
  | ("object", _) => none
  | ("created_at", .num n) => some { t with CreatedAt := n }
  | ("created_at", .null) => some t
  | ("created_at", _) => none
  | ("metadata", .obj gs) => some { t with Metadata := decodeGoValueFields gs }
  | ("metadata", .null) => some { t with Metadata := [] }
  | ("metadata", _) => none
  | ("tool_resources", .obj gs) => some { t with ToolResources := decodeGoValueFields gs }
  | ("tool_resources", .null) => some { t with ToolResources := [] }
  | ("tool_resources", _) => none
  | (_, _) => some t

/-- `json.Decode` into a `Thread`. -/
def decodeThread : Json → Option Thread
  | .obj fs => fs.foldlM threadStep zeroThread
  | .null => some zeroThread
  | _ => none

/-- `json.Marshal` of a `ThreadMessage` (no fallible components). -/
def marshalThreadMessage (m : ThreadMessage) : Json :=
  .obj [("role", .str m.Role), ("content", .str m.Content)]

/-- `json.Marshal` of `CreateThreadParams`: every field carries
`omitempty`, and the `interface`-valued components can make marshalling
fail. -/
def marshalCreateThreadParams (p : CreateThreadParams) : Option Json :=
  match marshalGoValueFields p.ToolResources, p.VectorStores.mapM marshalGoValueFields with
  | some tr, some vss =>
    some (.obj (
      (if p.Messages.isEmpty then []
       else [("messages", Json.arr (p.Messages.map marshalThreadMessage))]) ++
      (if p.ToolResources.isEmpty then []
       else [("tool_resources", Json.obj (sortFields tr))]) ++
      (if p.VectorStoreIDs.isEmpty then []
       else [("vector_store_ids", Json.arr (p.VectorStoreIDs.map Json.str))]) ++
      (if p.VectorStores.isEmpty then []
       else [("vector_stores", Json.arr (vss.map (fun l => Json.obj (sortFields l))))])))
  | _, _ => none

/-- The request `CreateThread` builds for a marshalled payload. -/
def createThreadRequest (payload : Json) : Request :=
  { method := "POST"
    url := "https://api.openai.com/v1/threads"
    query := []
    headers := [("Authorization", "Bearer " ++ openaiAPIKey),
                ("Content-Type", "application/json"),
                ("OpenAI-Beta", "assistants=v2")]
    body := .json payload }

/-- `CreateThread` (files.go): creates a new thread. -/
def CreateThread (params : CreateThreadParams) (net : NetResult) :
    Except GoError Thread × List Sent :=
  match marshalCreateThreadParams params with
  | none => (.error (.errorf "failed to marshal thread payload: %w"), [])
  | some payload =>
    let req := createThreadRequest payload
    match net with
    | .transportError => (.error (.errorf "thread request failed: %w"), [.http req])
    | .success resp =>
      if resp.statusCode ≠ 200 then
        (.error (.statusError "thread creation failed with status %s: %s"
            resp.status resp.body), [.http req])
      else
        match decodeThread resp.body with
        | none => (.error (.errorf "failed to decode thread response: %w"), [.http req])
        | some t => (.ok t, [.http req])

end FilesC

/-! ## message.go — messages -/

namespace Msg

/-- `ContentText` (message.go): the textual content of a message. -/
structure ContentText where
  Value : String
  Annotations : List GoValue
deriving Repr

/-- `MessageContent` (message.go): the content structure within a message. -/
structure MessageContent where
  «Type» : String
  Text : ContentText
deriving Repr

/-- `Message` (message.go): a single message in a thread. -/
structure Message where
  ID : String
  Object : String
  CreatedAt : Int
  AssistantID : Option String
  ThreadID : String
  RunID : Option String
  Role : String
  Content : List MessageContent
  Attachments : List GoValue
  Metadata : List (String × GoValue)
deriving Repr

/-- `CreateMessageParams` (message.go): `ThreadID` is excluded from the
request body (tag `json:"-"`) and only used for the URL. -/
structure CreateMessageParams where
  ThreadID : String
  Role : String
  Content : String
deriving Repr

/-- The Go zero value of `ContentText`. -/
def zeroContentText : ContentText := ⟨"", []⟩

/-- One step of decoding `ContentText`. -/
def contentTextStep (c : ContentText) : String × Json → Option ContentText
  | ("value", .str s) => some { c with Value := s }
  | ("value", .null) => some c
  | ("value", _) => none
  | ("annotations", .arr xs) => some { c with Annotations := decodeGoValueList xs }
  | ("annotations", .null) => some { c with Annotations := [] }
  | ("annotations", _) => none
  | (_, _) => some c

/-- `json.Unmarshal` into `ContentText`. -/
def decodeContentText : Json → Option ContentText
  | .obj fs => fs.foldlM contentTextStep zeroContentText
  | .null => some zeroContentText
  | _ => none

/-- The Go zero value of `MessageContent`. -/
def zeroMessageContent : MessageContent := ⟨"", zeroContentText⟩

/-- One step of decoding `MessageContent`. -/
def messageContentStep (c : MessageContent) : String × Json → Option MessageContent
  | ("type", .str s) => some { c with «Type» := s }
  | ("type", .null) => some c
  | ("type", _) => none
  | ("text", .null) => some c
  | ("text", v) => (decodeContentText v).map (fun t => { c with Text := t })
  | (_, _) => some c

/-- `json.Unmarshal` into `MessageContent`. -/
def decodeMessageContent : Json → Option MessageContent
  | .obj fs => fs.foldlM messageContentStep zeroMessageContent
  | .null => some zeroMessageContent
  | _ => none

/-- The Go zero value of `Message`. -/
def zeroMessage : Message := ⟨"", "", 0, none, "", none, "", [], [], []⟩

/-- One step of decoding `Message`. -/
def messageStep (m : Message) : String × Json → Option Message
  | ("id", .str s) => some { m with ID := s }
  | ("id", .null) => some m
  | ("id", _) => none
  | ("object", .str s) => some { m with Object := s }
  | ("object", .null) => some m
  | ("object", _) => none
  | ("created_at", .num n) => some { m with CreatedAt := n }
  | ("created_at", .null) => some m
  | ("created_at", _) => none
  | ("assistant_id", .str s) => some { m with AssistantID := some s }
  | ("assistant_id", .null) => some { m with AssistantID := none }
  | ("assistant_id", _) => none
  | ("thread_id", .str s) => some { m with ThreadID := s }
  | ("thread_id", .null) => some m
  | ("thread_id", _) => none
  | ("run_id", .str s) => some { m with RunID := some s }
  | ("run_id", .null) => some { m with RunID := none }
  | ("run_id", _) => none
  | ("role", .str s) => some { m with Role := s }
  | ("role", .null) => some m
  | ("role", _) => none
  | ("content", .arr xs) => (xs.mapM decodeMessageContent).map (fun l => { m with Content := l })
  | ("content", .null) => some { m with Content := [] }
  | ("content", _) => none
  | ("attachments", .arr xs) => some { m with Attachments := decodeGoValueList xs }
  | ("attachments", .null) => some { m with Attachments := [] }
  | ("attachments", _) => none
  | ("metadata", .obj gs) => some { m with Metadata := decodeGoValueFields gs }
  | ("metadata", .null) => some { m with Metadata := [] }
  | ("metadata", _) => none
  | (_, _) => some m

/-- `json.Unmarshal` into a `Message`. -/
def decodeMessage : Json → Option Message
  | .obj fs => fs.foldlM messageStep zeroMessage
  | .null => some zeroMessage
  | _ => none

/-- One step of decoding `CreateMessage`'s anonymous wrapper
`struct ... Data Message ...`. -/
def messageDataStep (m : Message) : String × Json → Option Message
  | ("data", .null) => some m
  | ("data", v) => decodeMessage v
  | (_, _) => some m

/-- `json.Decode` into `CreateMessage`'s anonymous `Data Message` wrapper;
the returned value is the `Data` field. -/
def decodeMessageResult : Json → Option Message
  | .obj fs => fs.foldlM messageDataStep zeroMessage
  | .null => some zeroMessage
  | _ => none

/-- One step of decoding `ListMessages`'s anonymous wrapper
`struct ... Data []Message ...`. -/
def messageListDataStep (d : List Message) : String × Json → Option (List Message)
  | ("data", .arr xs) => xs.mapM decodeMessage
  | ("data", .null) => some d
  | ("data", _) => none
  | (_, _) => some d

/-- `json.Decode` into `ListMessages`'s anonymous `Data []Message` wrapper. -/
def decodeMessageList : Json → Option (List Message)
  | .obj fs => fs.foldlM messageListDataStep []
  | .null => some []
  | _ => none

/-- The request `CreateMessage` builds.  Its body is the marshalled
`map[string]string` of role and content (Go emits map keys sorted). -/
def createMessageRequest (params : CreateMessageParams) : Request :=
  { method := "POST"
    url := "https://api.openai.com/v1/threads/" ++ params.ThreadID ++ "/messages"
    query := []
    headers := [("Authorization", "Bearer " ++ openaiAPIKey),
                ("Content-Type", "application/json"),
                ("OpenAI-Beta", "assistants=v2")]
    body := .json (.obj (sortFields [("role", .str params.Role),
                                     ("content", .str params.Content)])) }

/-- `CreateMessage` (message.go): validates its parameters, then creates a
message in the given thread.  Both 200 and 201 pass its status check. -/
def CreateMessage (params : CreateMessageParams) (net : NetResult) :
    Except GoError Message × List Sent :=
  if params.ThreadID = "" then
    (.error (.errorf "threadID is required"), [])
  else if params.Role = "" then
    (.error (.errorf "role is required"), [])
  else if params.Content = "" then
    (.error (.errorf "content is required"), [])
  else
    let req := createMessageRequest params
    match net with
    | .transportError => (.error (.errorf "request to create message failed: %w"), [.http req])
    | .success resp =>
      if resp.statusCode ≠ 200 ∧ resp.statusCode ≠ 201 then
        (.error (.statusError "failed to create message with status %s: %s"
            resp.status resp.body), [.http req])
      else
        match decodeMessageResult resp.body with
        | none => (.error (.errorf "failed to decode message response: %w"), [.http req])
        | some m => (.ok m, [.http req])

/-- The query parameters `ListMessages` adds through `url.Values`. -/
def listMessagesQuery (limit : Int) (order after before runID : String) :
    List (String × String) :=
  (if limit > 0 then [("limit", toString limit)] else []) ++
  (if order ≠ "" then [("order", order)] else []) ++
  (if after ≠ "" then [("after", after)] else []) ++
  (if before ≠ "" then [("before", before)] else []) ++
  (if runID ≠ "" then [("run_id", runID)] else [])

/-- The request `ListMessages` builds. -/
def listMessagesRequest (threadID : String) (limit : Int)
    (order after before runID : String) : Request :=
  { method := "GET"
    url := "https://api.openai.com/v1/threads/" ++ threadID ++ "/messages"
    query := listMessagesQuery limit order after before runID
    headers := [("Authorization", "Bearer " ++ openaiAPIKey),
                ("Content-Type", "application/json"),
                ("OpenAI-Beta", "assistants=v2")]
    body := .empty }

/-- `ListMessages` (message.go): lists the messages of a thread. -/
def ListMessages (threadID : String) (limit : Int)
    (order after before runID : String) (net : NetResult) :
    Except GoError (List Message) × List Sent :=
  let req := listMessagesRequest threadID limit order after before runID
  match net with
  | .transportError => (.error (.errorf "request to list messages failed: %w"), [.http req])
  | .success resp =>
    if resp.statusCode ≠ 200 then
      (.error (.statusError "failed to list messages with status %s: %s"
          resp.status resp.body), [.http req])
    else
      match decodeMessageList resp.body with
      | none => (.error (.errorf "failed to decode messages response: %w"), [.http req])
      | some l => (.ok l, [.http req])

end Msg

/-! ## run.go — runs

Go `float64`-valued fields (`Temperature`, `TopP`) are modelled with `Int`;
no property proved here depends on their numeric contents. -/

namespace Runs

/-- `CreateRunParams` (run.go).  Pointer-typed Go fields become `Option`;
`interface`-typed components become `GoValue`. -/
structure CreateRunParams where
  AssistantID : String
  Model : Option String
  Instructions : Option String
  AdditionalInstructions : Option String
  AdditionalMessages : List FilesC.ThreadMessage
  Tools : List (List (String × GoValue))
  Metadata : List (String × String)
  Temperature : Option Int
  TopP : Option Int
  Stream : Option Bool
  MaxPromptTokens : Option Int
  MaxCompletionTokens : Option Int
  TruncationStrategy : Option (List (String × GoValue))
  ToolChoice : Option (List (String × GoValue))
  ParallelToolCalls : Option Bool
  ResponseFormat : Option GoValue
deriving Repr

/-- The anonymous `Usage` struct nested in `Run`. -/
structure RunUsage where
  PromptTokens : Int
  CompletionTokens : Int
  TotalTokens : Int
deriving Repr

/-- `Run` (run.go): the response from creating or retrieving a run. -/
structure Run where
  ID : String
  Object : String
  CreatedAt : Int
  AssistantID : String
  ThreadID : String
  Status : String
  StartedAt : Option Int
  ExpiresAt : Option Int
  CancelledAt : Option Int
  FailedAt : Option Int
  CompletedAt : Option Int
  LastError : Option String
  Model : String
  Instructions : Option String
  Metadata : List (String × GoValue)
  IncompleteDetails : Option String
  Usage : RunUsage
  Temperature : Option Int
  TopP : Option Int
  MaxPromptTokens : Option Int
  MaxCompletionTokens : Option Int
  TruncationStrategy : List (String × GoValue)
  ResponseFormat : String
  ToolChoice : String
  ParallelToolCalls : Option Bool
deriving Repr

/-- The Go zero value of `RunUsage`. -/
def zeroRunUsage : RunUsage := ⟨0, 0, 0⟩

/-- One step of decoding `RunUsage`. -/
def runUsageStep (u : RunUsage) : String × Json → Option RunUsage
  | ("prompt_tokens", .num n) => some { u with PromptTokens := n }
  | ("prompt_tokens", .null) => some u
  | ("prompt_tokens", _) => none
  | ("completion_tokens", .num n) => some { u with CompletionTokens := n }
  | ("completion_tokens", .null) => some u
  | ("completion_tokens", _) => none
  | ("total_tokens", .num n) => some { u with TotalTokens := n }
  | ("total_tokens", .null) => some u
  | ("total_tokens", _) => none
  | (_, _) => some u

/-- `json.Unmarshal` into `RunUsage`. -/
def decodeRunUsage : Json → Option RunUsage
  | .obj fs => fs.foldlM runUsageStep zeroRunUsage
  | .null => some zeroRunUsage
  | _ => none

/-- The Go zero value of `Run`. -/
def zeroRun : Run :=
  ⟨"", "", 0, "", "", "", none, none, none, none, none, none, "", none, [],
   none, zeroRunUsage, none, none, none, none, [], "", "", none⟩

/-- One step of decoding `Run`. -/
def runStep (r : Run) : String × Json → Option Run
  | ("id", .str s) => some { r with ID := s }
  | ("id", .null) => some r
  | ("id", _) => none
  | ("object", .str s) => some { r with Object := s }
  | ("object", .null) => some r
  | ("object", _) => none
  | ("created_at", .num n) => some { r with CreatedAt := n }
  | ("created_at", .null) => some r
  | ("created_at", _) => none
  | ("assistant_id", .str s) => some { r with AssistantID := s }
  | ("assistant_id", .null) => some r
  | ("assistant_id", _) => none
  | ("thread_id", .str s) => some { r with ThreadID := s }
  | ("thread_id", .null) => some r
  | ("thread_id", _) => none
  | ("status", .str s) => some { r with Status := s }
  | ("status", .null) => some r
  | ("status", _) => none
  | ("started_at", .num n) => some { r with StartedAt := some n }
  | ("started_at", .null) => some { r with StartedAt := none }
  | ("started_at", _) => none
  | ("expires_at", .num n) => some { r with ExpiresAt := some n }
  | ("expires_at", .null) => some { r with ExpiresAt := none }
  | ("expires_at", _) => none
  | ("cancelled_at", .num n) => some { r with CancelledAt := some n }
  | ("cancelled_at", .null) => some { r with CancelledAt := none }
  | ("cancelled_at", _) => none
  | ("failed_at", .num n) => some { r with FailedAt := some n }
  | ("failed_at", .null) => some { r with FailedAt := none }
  | ("failed_at", _) => none
  | ("completed_at", .num n) => some { r with CompletedAt := some n }
  | ("completed_at", .null) => some { r with CompletedAt := none }
  | ("completed_at", _) => none
  | ("last_error", .str s) => some { r with LastError := some s }
  | ("last_error", .null) => some { r with LastError := none }
  | ("last_error", _) => none
  | ("model", .str s) => some { r with Model := s }
  | ("model", .null) => some r
  | ("model", _) => none
  | ("instructions", .str s) => some { r with Instructions := some s }
  | ("instructions", .null) => some { r with Instructions := none }
  | ("instructions", _) => none
  | ("metadata", .obj gs) => some { r with Metadata := decodeGoValueFields gs }
  | ("metadata", .null) => some { r with Metadata := [] }
  | ("metadata", _) => none
  | ("incomplete_details", .str s) => some { r with IncompleteDetails := some s }
  | ("incomplete_details", .null) => some { r with IncompleteDetails := none }
  | ("incomplete_details", _) => none
  | ("usage", .null) => some r
  | ("usage", v) => (decodeRunUsage v).map (fun u => { r with Usage := u })
  | ("temperature", .num n) => some { r with Temperature := some n }
  | ("temperature", .null) => some { r with Temperature := none }
  | ("temperature", _) => none
  | ("top_p", .num n) => some { r with TopP := some n }
  | ("top_p", .null) => some { r with TopP := none }
  | ("top_p", _) => none
  | ("max_prompt_tokens", .num n) => some { r with MaxPromptTokens := some n }
  | ("max_prompt_tokens", .null) => some { r with MaxPromptTokens := none }
  | ("max_prompt_tokens", _) => none
  | ("max_completion_tokens", .num n) => some { r with MaxCompletionTokens := some n }
  | ("max_completion_tokens", .null) => some { r with MaxCompletionTokens := none }
  | ("max_completion_tokens", _) => none
  | ("truncation_strategy", .obj gs) => some { r with TruncationStrategy := decodeGoValueFields gs }
  | ("truncation_strategy", .null) => some { r with TruncationStrategy := [] }
  | ("truncation_strategy", _) => none
  | ("response_format", .str s) => some { r with ResponseFormat := s }
  | ("response_format", .null) => some r
  | ("response_format", _) => none
  | ("tool_choice", .str s) => some { r with ToolChoice := s }
  | ("tool_choice", .null) => some r
  | ("tool_choice", _) => none
  | ("parallel_tool_calls", .bool b) => some { r with ParallelToolCalls := some b }
  | ("parallel_tool_calls", .null) => some { r with ParallelToolCalls := none }
  | ("parallel_tool_calls", _) => none
  | (_, _) => some r

/-- `json.Decode` into a `Run`. -/
def decodeRun : Json → Option Run
  | .obj fs => fs.foldlM runStep zeroRun
  | .null => some zeroRun
  | _ => none

/-- A present optional field of a marshalled object. -/
def optField (key : String) : Option Json → List (String × Json)
  | none => []
  | some j => [(key, j)]

/-- Marshal an optional `interface`-valued map field. -/
def marshalOptMap : Option (List (String × GoValue)) → Option (Option Json)
  | none => some none
  | some fs => (marshalGoValueFields fs).map (fun l => some (.obj (sortFields l)))

/-- Marshal an optional `interface` field. -/
def marshalOptValue : Option GoValue → Option (Option Json)
  | none => some none
  | some v => (marshalGoValue v).map some

/-- `json.Marshal` of `CreateRunParams`: fails exactly when one of the
`interface`-valued components contains a non-serializable value. -/
def marshalCreateRunParams (p : CreateRunParams) : Option Json := do
  let tools ← p.Tools.mapM marshalGoValueFields
  let trunc ← marshalOptMap p.TruncationStrategy
  let choice ← marshalOptMap p.ToolChoice
  let rf ← marshalOptValue p.ResponseFormat
  some (.obj (
    [("assistant_id", Json.str p.AssistantID)] ++
    optField "model" (p.Model.map Json.str) ++
    optField "instructions" (p.Instructions.map Json.str) ++
    optField "additional_instructions" (p.AdditionalInstructions.map Json.str) ++
    (if p.AdditionalMessages.isEmpty then []
     else [("additional_messages",
            Json.arr (p.AdditionalMessages.map FilesC.marshalThreadMessage))]) ++
    (if p.Tools.isEmpty then []
     else [("tools", Json.arr (tools.map (fun l => Json.obj (sortFields l))))]) ++
    (if p.Metadata.isEmpty then []
     else [("metadata",
            Json.obj (sortFields (p.Metadata.map (fun kv => (kv.fst, Json.str kv.snd)))))]) ++
    optField "temperature" (p.Temperature.map Json.num) ++
    optField "top_p" (p.TopP.map Json.num) ++
    optField "stream" (p.Stream.map Json.bool) ++
    optField "max_prompt_tokens" (p.MaxPromptTokens.map Json.num) ++
    optField "max_completion_tokens" (p.MaxCompletionTokens.map Json.num) ++
    optField "truncation_strategy" trunc ++
    optField "tool_choice" choice ++
    optField "parallel_tool_calls" (p.ParallelToolCalls.map Json.bool) ++
    optField "response_format" rf))

/-- The query-string suffix `CreateRun` concatenates for a non-empty
`include` slice. -/
def includeQuery : List String → String
  | [] => ""
  | x :: xs => "?include=" ++ x ++ xs.foldl (fun acc f => acc ++ "&include=" ++ f) ""

/-- The request `CreateRun` builds for a marshalled payload. -/
def createRunRequest (threadID : String) («include» : List String) (payload : Json) : Request :=
  { method := "POST"
    url := "https://api.openai.com/v1/threads/" ++ threadID ++ "/runs" ++ includeQuery «include»
    query := []
    headers := [("Authorization", "Bearer " ++ openaiAPIKey),
                ("Content-Type", "application/json"),
                ("OpenAI-Beta", "assistants=v2")]
    body := .json payload }

/-- `CreateRun` (run.go): creates a run in a thread. -/
def CreateRun (threadID : String) (params : CreateRunParams) («include» : List String)
    (net : NetResult) : Except GoError Run × List Sent :=
  match marshalCreateRunParams params with
  | none => (.error (.errorf "failed to marshal run payload: %w"), [])
  | some payload =>
    let req := createRunRequest threadID «include» payload
    match net with
    | .transportError => (.error (.errorf "run request failed: %w"), [.http req])
    | .success resp =>
      if resp.statusCode ≠ 200 then
        (.error (.statusError "run creation failed with status %s: %s"
            resp.status resp.body), [.http req])
      else
        match decodeRun resp.body with
        | none => (.error (.errorf "failed to decode run response: %w"), [.http req])
        | some r => (.ok r, [.http req])

/-- The request `RetrieveRun` builds. -/
def retrieveRunRequest (threadID runID : String) : Request :=
  { method := "GET"
    url := "https://api.openai.com/v1/threads/" ++ threadID ++ "/runs/" ++ runID
    query := []
    headers := [("Authorization", "Bearer " ++ openaiAPIKey),
                ("Content-Type", "application/json"),
                ("OpenAI-Beta", "assistants=v2")]
    body := .empty }

/-- `RetrieveRun` (run.go): retrieves one run of a thread. -/
def RetrieveRun (threadID runID : String) (net : NetResult) :
    Except GoError Run × List Sent :=
  let req := retrieveRunRequest threadID runID
  match net with
  | .transportError => (.error (.errorf "run retrieval request failed: %w"), [.http req])
  | .success resp =>
    if resp.statusCode ≠ 200 then
      (.error (.statusError "run retrieval failed with status %s: %s"
          resp.status resp.body), [.http req])
    else
      match decodeRun resp.body with
      | none => (.error (.errorf "failed to decode run response: %w"), [.http req])
      | some r => (.ok r, [.http req])

end Runs

/-! ## vectorstore.go — vector stores -/

namespace VS

/-- `ExpirationPolicy` (vectorstore.go). -/
structure ExpirationPolicy where
  Anchor : String
  Days : Int
deriving Repr

/-- `ChunkingStrategy` (vectorstore.go). -/
structure ChunkingStrategy where
  «Type» : String
  MaxChunkSizeTokens : Int
  ChunkOverlapTokens : Int
deriving Repr

/-- `CreateVectorStoreParams` (vectorstore.go). -/
structure CreateVectorStoreParams where
  Name : String
  FileIDs : List String
  Metadata : List (String × String)
  ExpiresAfter : Option ExpirationPolicy
  ChunkingStrategy : Option ChunkingStrategy
deriving Repr

/-- `VectorStore` (vectorstore.go): the response for a vector store. -/
structure VectorStore where
  ID : String
  Object : String
  CreatedAt : Int
  Name : String
  UsageBytes : Int
  Status : String
  ExpiresAfter : Option ExpirationPolicy
  Metadata : List (String × String)
  FileCounts : List (String × Int)
  ExpiresAt : Option Int
  LastActiveAt : Option Int
deriving Repr

/-- The Go zero value of `ExpirationPolicy`. -/
def zeroExpirationPolicy : ExpirationPolicy := ⟨"", 0⟩

/-- One step of decoding `ExpirationPolicy`. -/
def expirationPolicyStep (e : ExpirationPolicy) : String × Json → Option ExpirationPolicy
  | ("anchor", .str s) => some { e with Anchor := s }
  | ("anchor", .null) => some e
  | ("anchor", _) => none
  | ("days", .num n) => some { e with Days := n }
  | ("days", .null) => some e
  | ("days", _) => none
  | (_, _) => some e

/-- `json.Unmarshal` into `ExpirationPolicy`. -/
def decodeExpirationPolicy : Json → Option ExpirationPolicy
  | .obj fs => fs.foldlM expirationPolicyStep zeroExpirationPolicy
  | .null => some zeroExpirationPolicy
  | _ => none

/-- Decode a JSON object whose values must all be strings
(`map[string]string`). -/
def decodeStringMap : List (String × Json) → Option (List (String × String))
  | [] => some []
  | (k, .str s) :: fs => (decodeStringMap fs).map (fun l => (k, s) :: l)
  | (_, _) :: _ => none

/-- Decode a JSON object whose values must all be numbers
(`map[string]int`). -/
def decodeIntMap : List (String × Json) → Option (List (String × Int))
  | [] => some []
  | (k, .num n) :: fs => (decodeIntMap fs).map (fun l => (k, n) :: l)
  | (_, _) :: _ => none

/-- The Go zero value of `VectorStore`. -/
def zeroVectorStore : VectorStore :=
  ⟨"", "", 0, "", 0, "", none, [], [], none, none⟩

/-- One step of decoding `VectorStore`. -/
def vectorStoreStep (v : VectorStore) : String × Json → Option VectorStore
  | ("id", .str s) => some { v with ID := s }
  | ("id", .null) => some v
  | ("id", _) => none
  | ("object", .str s) => some { v with Object := s }
  | ("object", .null) => some v
  | ("object", _) => none
  | ("created_at", .num n) => some { v with CreatedAt := n }
  | ("created_at", .null) => some v
  | ("created_at", _) => none
  | ("name", .str s) => some { v with Name := s }
  | ("name", .null) => some v
  | ("name", _) => none
  | ("usage_bytes", .num n) => some { v with UsageBytes := n }
  | ("usage_bytes", .null) => some v
  | ("usage_bytes", _) => none
  | ("status", .str s) => some { v with Status := s }
  | ("status", .null) => some v
  | ("status", _) => none
  | ("expires_after", .null) => some { v with ExpiresAfter := none }
  | ("expires_after", j) => (decodeExpirationPolicy j).map (fun e => { v with ExpiresAfter := some e })
  | ("metadata", .obj fs) => (decodeStringMap fs).map (fun l => { v with Metadata := l })
  | ("metadata", .null) => some { v with Metadata := [] }
  | ("metadata", _) => none
  | ("file_counts", .obj fs) => (decodeIntMap fs).map (fun l => { v with FileCounts := l })
  | ("file_counts", .null) => some { v with FileCounts := [] }
  | ("file_counts", _) => none
  | ("expires_at", .num n) => some { v with ExpiresAt := some n }
  | ("expires_at", .null) => some { v with ExpiresAt := none }
  | ("expires_at", _) => none
  | ("last_active_at", .num n) => some { v with LastActiveAt := some n }
  | ("last_active_at", .null) => some { v with LastActiveAt := none }
  | ("last_active_at", _) => none
  | (_, _) => some v

/-- `json.Decode` into a `VectorStore`. -/
def decodeVectorStore : Json → Option VectorStore
  | .obj fs => fs.foldlM vectorStoreStep zeroVectorStore
  | .null => some zeroVectorStore
  | _ => none

/-- One step of decoding `VectorStoreListResponse`'s `Data` field. -/
def vsDataStep (d : List VectorStore) : String × Json → Option (List VectorStore)
  | ("data", .arr xs) => xs.mapM decodeVectorStore
  | ("data", .null) => some d
  | ("data", _) => none
  | (_, _) => some d

/-- `json.Decode` into `VectorStoreListResponse`. -/
def decodeVectorStoreList : Json → Option (List VectorStore)
  | .obj fs => fs.foldlM vsDataStep []
  | .null => some []
  | _ => none

/-- `json.Marshal` of an `ExpirationPolicy` (no fallible components). -/
def marshalExpirationPolicy (e : ExpirationPolicy) : Json :=
  .obj [("anchor", .str e.Anchor), ("days", .num e.Days)]

/-- `json.Marshal` of a `ChunkingStrategy` (`omitempty` on the token
counts). -/
def marshalChunkingStrategy (c : ChunkingStrategy) : Json :=
  .obj ([("type", Json.str c.«Type»)] ++
    (if c.MaxChunkSizeTokens = 0 then []
     else [("max_chunk_size_tokens", Json.num c.MaxChunkSizeTokens)]) ++
    (if c.ChunkOverlapTokens = 0 then []
     else [("chunk_overlap_tokens", Json.num c.ChunkOverlapTokens)]))

/-- `json.Marshal` of `CreateVectorStoreParams`: every field carries
`omitempty` and none can fail to serialize. -/
def marshalCreateVectorStoreParams (p : CreateVectorStoreParams) : Json :=
  .obj (
    (if p.Name = "" then [] else [("name", Json.str p.Name)]) ++
    (if p.FileIDs.isEmpty then [] else [("file_ids", Json.arr (p.FileIDs.map Json.str))]) ++
    (if p.Metadata.isEmpty then []
     else [("metadata",
            Json.obj (sortFields (p.Metadata.map (fun kv => (kv.fst, Json.str kv.snd)))))]) ++
    (match p.ExpiresAfter with
     | none => []
     | some e => [("expires_after", marshalExpirationPolicy e)]) ++
    (match p.ChunkingStrategy with
     | none => []
     | some c => [("chunking_strategy", marshalChunkingStrategy c)]))

/-- The request `CreateVectorStore` builds. -/
def createVectorStoreRequest (params : CreateVectorStoreParams) : Request :=
  { method := "POST"
    url := "https://api.openai.com/v1/vector_stores"
    query := []
    headers := [("Authorization", "Bearer " ++ openaiAPIKey),
                ("Content-Type", "application/json"),
                ("OpenAI-Beta", "assistants=v2")]
    body := .json (marshalCreateVectorStoreParams params) }

/-- `CreateVectorStore` (vectorstore.go): creates a new vector store. -/
def CreateVectorStore (params : CreateVectorStoreParams) (net : NetResult) :
    Except GoError VectorStore × List Sent :=
  let req := createVectorStoreRequest params
  match net with
  | .transportError => (.error (.errorf "vector store request failed: %w"), [.http req])
  | .success resp =>
    if resp.statusCode ≠ 200 then
      (.error (.statusError "vector store creation failed with status %s: %s"
          resp.status resp.body), [.http req])
    else
      match decodeVectorStore resp.body with
      | none => (.error (.errorf "failed to decode vector store response: %w"), [.http req])
      | some v => (.ok v, [.http req])

/-- The query parameters `ListVectorStores` adds through `url.Values`. -/
def listVectorStoresQuery (limit : Int) (order after before : String) :
    List (String × String) :=
  (if limit > 0 then [("limit", toString limit)] else []) ++
  (if order ≠ "" then [("order", order)] else []) ++
  (if after ≠ "" then [("after", after)] else []) ++
  (if before ≠ "" then [("before", before)] else [])

/-- The request `ListVectorStores` builds. -/
def listVectorStoresRequest (limit : Int) (order after before : String) : Request :=
  { method := "GET"
    url := "https://api.openai.com/v1/vector_stores"
    query := listVectorStoresQuery limit order after before
    headers := [("Authorization", "Bearer " ++ openaiAPIKey),
                ("Content-Type", "application/json"),
                ("OpenAI-Beta", "assistants=v2")]
    body := .empty }

/-- `ListVectorStores` (vectorstore.go): lists vector stores. -/
def ListVectorStores (limit : Int) (order after before : String) (net : NetResult) :
    Except GoError (List VectorStore) × List Sent :=
  let req := listVectorStoresRequest limit order after before
  match net with
  | .transportError => (.error (.errorf "list vector stores request failed: %w"), [.http req])
  | .success resp =>
    if resp.statusCode ≠ 200 then
      (.error (.statusError "list vector stores failed with status %s: %s"
          resp.status resp.body), [.http req])
    else
      match decodeVectorStoreList resp.body with
      | none => (.error (.errorf "failed to decode list vector stores response: %w"), [.http req])
      | some l => (.ok l, [.http req])

/-- The request `RetrieveVectorStore` builds. -/
def retrieveVectorStoreRequest (vectorStoreID : String) : Request :=
  { method := "GET"
    url := "https://api.openai.com/v1/vector_stores/" ++ vectorStoreID
    query := []
    headers := [("Authorization", "Bearer " ++ openaiAPIKey),
                ("Content-Type", "application/json"),
                ("OpenAI-Beta", "assistants=v2")]
    body := .empty }

/-- `RetrieveVectorStore` (vectorstore.go): retrieves one vector store. -/
def RetrieveVectorStore (vectorStoreID : String) (net : NetResult) :
    Except GoError VectorStore × List Sent :=
  let req := retrieveVectorStoreRequest vectorStoreID
  match net with
  | .transportError => (.error (.errorf "retrieve vector store request failed: %w"), [.http req])
  | .success resp =>
    if resp.statusCode ≠ 200 then
      (.error (.statusError "retrieve vector store failed with status %s: %s"
          resp.status resp.body), [.http req])
    else
      match decodeVectorStore resp.body with
      | none => (.error (.errorf "failed to decode retrieve vector store response: %w"), [.http req])
      | some v => (.ok v, [.http req])

/-- The request `DeleteVectorStore` builds. -/
def deleteVectorStoreRequest (vectorStoreID : String) : Request :=
  { method := "DELETE"
    url := "https://api.openai.com/v1/vector_stores/" ++ vectorStoreID
    query := []
    headers := [("Authorization", "Bearer " ++ openaiAPIKey),
                ("Content-Type", "application/json"),
                ("OpenAI-Beta", "assistants=v2")]
    body := .empty }

/-- `DeleteVectorStore` (vectorstore.go): deletes one vector store. -/
def DeleteVectorStore (vectorStoreID : String) (net : NetResult) :
    Except GoError Unit × List Sent :=
  let req := deleteVectorStoreRequest vectorStoreID
  match net with
  | .transportError => (.error (.errorf "delete vector store request failed: %w"), [.http req])
  | .success resp =>
    if resp.statusCode ≠ 200 then
      (.error (.statusError "delete vector store failed with status %s: %s"
          resp.status resp.body), [.http req])
    else
      (.ok (), [.http req])

end VS

/-! ## embeddings.go — embeddings

`CreateEmbedding` delegates the HTTP exchange to the `go-openai` SDK; the
SDK call's outcome is modelled by `SdkResult`.  Embedding vector components
(`float64`) are modelled with `Int`; no property proved here depends on
their numeric contents. -/

namespace Emb

/-- One item of the SDK's embeddings response (`resp.Data[i]`). -/
structure EmbeddingItem where
  Embedding : List Int
deriving Repr

/-- The SDK's embeddings response, as far as `CreateEmbedding` reads it. -/
structure EmbeddingsSdkResp where
  Data : List EmbeddingItem
deriving Repr

/-- Outcome of `client.CreateEmbeddings`: an SDK error or a response. -/
inductive SdkResult where
  | sdkError
  | success (resp : EmbeddingsSdkResp)
deriving Repr

/-- `CreateEmbedding` (embeddings.go): reads a file, obtains an embedding
through the SDK, and returns the lowercase hex SHA-1 of the file content
as the embedding's ID. -/
def CreateEmbedding (fileContent : Option (List Nat)) (api : SdkResult) :
    Except GoError String × List Sent :=
  match fileContent with
  | none => (.error (.errorf "failed to read file %s: %w"), [])
  | some content =>
    match api with
    | .sdkError => (.error (.errorf "error creating embedding: %w"), [.sdk "CreateEmbeddings"])
    | .success resp =>
      if resp.Data.length = 0 ∨ ((resp.Data.headD ⟨[]⟩).Embedding).length = 0 then
        (.error (.errorf "no embedding data returned"), [.sdk "CreateEmbeddings"])
      else
        (.ok (sha1Hex content), [.sdk "CreateEmbeddings"])

/-- `EmbeddingResponse` (embeddings.go). -/
structure EmbeddingResponse where
  Object : String
  Embedding : List Int
  Index : Int
deriving Repr

/-- Decode a JSON array whose elements must all be numbers (`[]float64`). -/
def decodeNumList : List Json → Option (List Int)
  | [] => some []
  | .num n :: xs => (decodeNumList xs).map (fun l => n :: l)
  | _ :: _ => none

/-- The Go zero value of `EmbeddingResponse`. -/
def zeroEmbeddingResponse : EmbeddingResponse := ⟨"", [], 0⟩

/-- One step of decoding `EmbeddingResponse`. -/
def embeddingResponseStep (e : EmbeddingResponse) : String × Json → Option EmbeddingResponse
  | ("object", .str s) => some { e with Object := s }
  | ("object", .null) => some e
  | ("object", _) => none
  | ("embedding", .arr xs) => (decodeNumList xs).map (fun l => { e with Embedding := l })
  | ("embedding", .null) => some { e with Embedding := [] }
  | ("embedding", _) => none
  | ("index", .num n) => some { e with Index := n }
  | ("index", .null) => some e
  | ("index", _) => none
  | (_, _) => some e

/-- `json.Decode` into an `EmbeddingResponse`. -/
def decodeEmbeddingResponse : Json → Option EmbeddingResponse
  | .obj fs => fs.foldlM embeddingResponseStep zeroEmbeddingResponse
  | .null => some zeroEmbeddingResponse
  | _ => none

/-- Go `string(bytes)`: the file content viewed as a string for the
embedding input. -/
def bytesStr (bs : List Nat) : String := String.mk (bs.map Char.ofNat)

/-- The request `CreateVectorForFile` builds for file content `content`
(the payload is a marshalled `map[string]interface` with sorted keys). -/
def createVectorRequest (content : List Nat) : Request :=
  { method := "POST"
    url := "https://api.openai.com/v1/embeddings"
    query := []
    headers := [("Authorization", "Bearer " ++ openaiAPIKey),
                ("Content-Type", "application/json")]
    body := .json (.obj (sortFields
      [("input", .str (bytesStr content)),
       ("model", .str "text-embedding-ada-002")])) }

/-- `CreateVectorForFile` (embeddings.go): reads a file, requests an
embedding over plain HTTP, and returns the lowercase hex SHA-1 of the file
content as the embedding's ID. -/
def CreateVectorForFile (fileContent : Option (List Nat)) (net : NetResult) :
    Except GoError String × List Sent :=
  match fileContent with
  | none => (.error (.errorf "failed to read file %s: %w"), [])
  | some content =>
    let req := createVectorRequest content
    match net with
    | .transportError => (.error (.errorf "embedding request failed: %w"), [.http req])
    | .success resp =>
      if resp.statusCode ≠ 200 then
        (.error (.statusError "embedding creation failed with status %s: %s"
            resp.status resp.body), [.http req])
      else
        match decodeEmbeddingResponse resp.body with
        | none => (.error (.errorf "failed to decode embedding response: %w"), [.http req])
        | some embeddingResp =>
          if embeddingResp.Embedding.length = 0 then
            (.error (.errorf "no embedding data returned for file %s"), [.http req])
          else
            (.ok (sha1Hex content), [.http req])

end Emb

/-! ## unnamed/part_000 — a second, independent file-endpoint client -/

namespace Part0

/-- `File` (part_000): holds response data for a file upload. -/
structure File where
  ID : String
  CreatedAt : Int
  Bytes : Int
  FileName : String
  Purpose : String
deriving Repr

/-- The Go zero value of `File`. -/
def zeroFile : File := ⟨"", 0, 0, "", ""⟩

/-- One step of decoding `File` (part_000). -/
def fileStep (f : File) : String × Json → Option File
  | ("id", .str s) => some { f with ID := s }
  | ("id", .null) => some f
  | ("id", _) => none
  | ("created_at", .num n) => some { f with CreatedAt := n }
  | ("created_at", .null) => some f
  | ("created_at", _) => none
  | ("bytes", .num n) => some { f with Bytes := n }
  | ("bytes", .null) => some f
  | ("bytes", _) => none
  | ("filename", .str s) => some { f with FileName := s }
  | ("filename", .null) => some f
  | ("filename", _) => none
  | ("purpose", .str s) => some { f with Purpose := s }
  | ("purpose", .null) => some f
  | ("purpose", _) => none
  | (_, _) => some f

/-- `json.Decode` into a `File` (part_000). -/
def decodeFile : Json → Option File
  | .obj fs => fs.foldlM fileStep zeroFile
  | .null => some zeroFile
  | _ => none

/-- One step of decoding `ListFiles`'s anonymous wrapper (part_000). -/
def fileDataStep (d : List File) : String × Json → Option (List File)
  | ("data", .arr xs) => xs.mapM decodeFile
  | ("data", .null) => some d
  | ("data", _) => none
  | (_, _) => some d

/-- `json.Decode` into `ListFiles`'s anonymous wrapper (part_000). -/
def decodeFileList : Json → Option (List File)
  | .obj fs => fs.foldlM fileDataStep []
  | .null => some []
  | _ => none

/-- The request `UploadFile` (part_000) builds: the same two-part form as
files.go's `UploadContent`, but the filename is always the path given. -/
def uploadFileRequest (filePath : String) (content : List Nat) : Request :=
  { method := "POST"
    url := "https://api.openai.com/v1/files"
    query := []
    headers := [("Authorization", "Bearer " ++ openaiAPIKey),
                ("Content-Type", "multipart/form-data")]
    body := .multipart [.field "purpose" "user_data", .file "file" filePath content] }

/-- `UploadFile` (part_000): uploads a file as multipart form data; unlike
files.go's `UploadFile`, the path is used as the filename unchanged. -/
def UploadFile (fs : String → Option (List Nat)) (filePath : String) (net : NetResult) :
    Except GoError String × List Sent :=
  match fs filePath with
  | none => (.error (.errorf "failed to open file: %w"), [])
  | some content =>
    let req := uploadFileRequest filePath content
    match net with
    | .transportError => (.error (.errorf "request failed: %w"), [.http req])
    | .success resp =>
      if resp.statusCode ≠ 200 then
        (.error (.statusError "upload failed with status %s: %s"
            resp.status resp.body), [.http req])
      else
        match decodeFile resp.body with
        | none => (.error (.errorf "failed to decode response: %w"), [.http req])
        | some f => (.ok f.ID, [.http req])

/-- The request `ListFiles` (part_000) builds. -/
def listFilesRequest : Request :=
  { method := "GET"
    url := "https://api.openai.com/v1/files"
    query := []
    headers := [("Authorization", "Bearer " ++ openaiAPIKey)]
    body := .empty }

/-- `ListFiles` (part_000): retrieves the list of uploaded files. -/
def ListFiles (net : NetResult) : Except GoError (List File) × List Sent :=
  let req := listFilesRequest
  match net with
  | .transportError => (.error (.errorf "request failed: %w"), [.http req])
  | .success resp =>
    if resp.statusCode ≠ 200 then
      (.error (.statusError "retrieving files failed with status %s: %s"
          resp.status resp.body), [.http req])
    else
      match decodeFileList resp.body with
      | none => (.error (.errorf "failed to decode response: %w"), [.http req])
      | some l => (.ok l, [.http req])

/-- The request `RetrieveFile` (part_000) builds. -/
def retrieveFileRequest (fileID : String) : Request :=
  { method := "GET"
    url := "https://api.openai.com/v1/files/" ++ fileID
    query := []
    headers := [("Authorization", "Bearer " ++ openaiAPIKey),
                ("Content-Type", "application/json")]
    body := .empty }

/-- `RetrieveFile` (part_000): retrieves one file's metadata by ID. -/
def RetrieveFile (fileID : String) (net : NetResult) :
    Except GoError File × List Sent :=
  let req := retrieveFileRequest fileID
  match net with
  | .transportError => (.error (.errorf "file retrieval request failed: %w"), [.http req])
  | .success resp =>
    if resp.statusCode ≠ 200 then
      (.error (.statusError "file retrieval failed with status %s: %s"
          resp.status resp.body), [.http req])
    else
      match decodeFile resp.body with
      | none => (.error (.errorf "failed to decode file retrieval response: %w"), [.http req])
      | some f => (.ok f, [.http req])

/-- The request `DeleteFile` (part_000) builds. -/
def deleteFileRequest (fileID : String) : Request :=
  { method := "DELETE"
    url := "https://api.openai.com/v1/files/" ++ fileID
    query := []
    headers := [("Authorization", "Bearer " ++ openaiAPIKey)]
    body := .empty }

/-- `DeleteFile` (part_000): deletes a file by ID. -/
def DeleteFile (fileID : String) (net : NetResult) :
    Except GoError Unit × List Sent :=
  let req := deleteFileRequest fileID
  match net with
  | .transportError => (.error (.errorf "delete request failed: %w"), [.http req])
  | .success resp =>
    if resp.statusCode ≠ 200 then
      (.error (.statusError "file deletion failed with status %s: %s"
          resp.status resp.body), [.http req])
    else
      (.ok (), [.http req])

end Part0

/-! ## unnamed/part_001 — assistants -/

namespace Part1

/-- `Assistant` (part_001). -/
structure Assistant where
  ID : String
  Name : String
  Model : String
  CreatedAt : Int
  Status : String
  Description : String
deriving Repr

/-- `RankingOptions` (part_001); `ScoreThreshold` is a Go `float64`,
modelled with `Int`. -/
structure RankingOptions where
  Ranker : String
  ScoreThreshold : Int
deriving Repr

/-- `FileSearchConfig` (part_001). -/
structure FileSearchConfig where
  MaxNumResults : Int
  RankingOptions : Option RankingOptions
deriving Repr

/-- `CodeInterpreterConfig` (part_001). -/
structure CodeInterpreterConfig where
  FileIDs : List String
deriving Repr

/-- `Tool` (part_001). -/
structure Tool where
  «Type» : String
  FileSearch : Option FileSearchConfig
  CodeInterpreter : Option CodeInterpreterConfig
deriving Repr

/-- `CreateAssistantParams` (part_001).  `ResponseFormat` is a Go
`interface` value (`GoValue.null` models the nil interface). -/
structure CreateAssistantParams where
  Name : String
  Description : String
  Model : String
  Instructions : String
  Tools : List Tool
  ToolResources : List (String × GoValue)
  Temperature : Option Int
  TopP : Option Int
  ResponseFormat : GoValue
  Metadata : List (String × String)
deriving Repr

/-- The Go zero value of `Assistant`. -/
def zeroAssistant : Assistant := ⟨"", "", "", 0, "", ""⟩

/-- One step of decoding `Assistant`. -/
def assistantStep (a : Assistant) : String × Json → Option Assistant
  | ("id", .str s) => some { a with ID := s }
  | ("id", .null) => some a
  | ("id", _) => none
  | ("name", .str s) => some { a with Name := s }
  | ("name", .null) => some a
  | ("name", _) => none
  | ("model", .str s) => some { a with Model := s }
  | ("model", .null) => some a
  | ("model", _) => none
  | ("created_at", .num n) => some { a with CreatedAt := n }
  | ("created_at", .null) => some a
  | ("created_at", _) => none
  | ("status", .str s) => some { a with Status := s }
  | ("status", .null) => some a
  | ("status", _) => none
  | ("description", .str s) => some { a with Description := s }
  | ("description", .null) => some a
  | ("description", _) => none
  | (_, _) => some a

/-- `json.Decode` into an `Assistant`. -/
def decodeAssistant : Json → Option Assistant
  | .obj fs => fs.foldlM assistantStep zeroAssistant
  | .null => some zeroAssistant
  | _ => none

/-- One step of decoding `ListAssistants`'s anonymous wrapper. -/
def assistantDataStep (d : List Assistant) : String × Json → Option (List Assistant)
  | ("data", .arr xs) => xs.mapM decodeAssistant
  | ("data", .null) => some d
  | ("data", _) => none
  | (_, _) => some d

/-- `json.Decode` into `ListAssistants`'s anonymous wrapper. -/
def decodeAssistantList : Json → Option (List Assistant)
  | .obj fs => fs.foldlM assistantDataStep []
  | .null => some []
  | _ => none

/-- Go map access `response[key].(string)` after decoding into
`map[string]interface`: duplicated JSON keys overwrite, so the last
occurrence wins. -/
def lookupLast (key : String) : List (String × GoValue) → Option GoValue
  | [] => none
  | (k, v) :: fs =>
    match lookupLast key fs with
    | some w => some w
    | none => if k = key then some v else none

/-- `json.Marshal` of `RankingOptions`. -/
def marshalRankingOptions (r : RankingOptions) : Json :=
  .obj ((if r.Ranker = "" then [] else [("ranker", Json.str r.Ranker)]) ++
        [("score_threshold", Json.num r.ScoreThreshold)])

/-- `json.Marshal` of `FileSearchConfig`. -/
def marshalFileSearchConfig (f : FileSearchConfig) : Json :=
  .obj ((if f.MaxNumResults = 0 then []
         else [("max_num_results", Json.num f.MaxNumResults)]) ++
        (match f.RankingOptions with
         | none => []
         | some r => [("ranking_options", marshalRankingOptions r)]))

/-- `json.Marshal` of `CodeInterpreterConfig`. -/
def marshalCodeInterpreterConfig (c : CodeInterpreterConfig) : Json :=
  .obj (if c.FileIDs.isEmpty then []
        else [("file_ids", Json.arr (c.FileIDs.map Json.str))])

/-- `json.Marshal` of a `Tool`. -/
def marshalTool (t : Tool) : Json :=
  .obj ([("type", Json.str t.«Type»)] ++
        (match t.FileSearch with
         | none => []
         | some f => [("file_search", marshalFileSearchConfig f)]) ++
        (match t.CodeInterpreter with
         | none => []
         | some c => [("code_interpreter", marshalCodeInterpreterConfig c)]))

/-- `json.Marshal` of `CreateAssistantParams`: fails exactly when one of
the `interface`-valued components contains a non-serializable value. -/
def marshalCreateAssistantParams (p : CreateAssistantParams) : Option Json := do
  let tr ← marshalGoValueFields p.ToolResources
  let rf ← match p.ResponseFormat with
           | .null => some none
           | v => (marshalGoValue v).map some
  some (.obj (
    (if p.Name = "" then [] else [("name", Json.str p.Name)]) ++
    (if p.Description = "" then [] else [("description", Json.str p.Description)]) ++
    [("model", Json.str p.Model)] ++
    (if p.Instructions = "" then [] else [("instructions", Json.str p.Instructions)]) ++
    (if p.Tools.isEmpty then [] else [("tools", Json.arr (p.Tools.map marshalTool))]) ++
    (if p.ToolResources.isEmpty then []
     else [("tool_resources", Json.obj (sortFields tr))]) ++
    Runs.optField "temperature" (p.Temperature.map Json.num) ++
    Runs.optField "top_p" (p.TopP.map Json.num) ++
    Runs.optField "response_format" rf ++
    (if p.Metadata.isEmpty then []
     else [("metadata",
            Json.obj (sortFields (p.Metadata.map (fun kv => (kv.fst, Json.str kv.snd)))))])))

/-- The request `ListAssistants` builds (only the Authorization and
OpenAI-Beta headers are set in the source). -/
def listAssistantsRequest : Request :=
  { method := "GET"
    url := "https://api.openai.com/v1/assistants"
    query := []
    headers := [("Authorization", "Bearer " ++ openaiAPIKey),
                ("OpenAI-Beta", "assistants=v2")]
    body := .empty }

/-- `ListAssistants` (part_001): retrieves the list of assistants. -/
def ListAssistants (net : NetResult) : Except GoError (List Assistant) × List Sent :=
  let req := listAssistantsRequest
  match net with
  | .transportError => (.error (.errorf "request failed: %w"), [.http req])
  | .success resp =>
    if resp.statusCode ≠ 200 then
      (.error (.statusError "retrieving assistants failed with status %s: %s"
          resp.status resp.body), [.http req])
    else
      match decodeAssistantList resp.body with
      | none => (.error (.errorf "failed to decode response: %w"), [.http req])
      | some l => (.ok l, [.http req])

/-- The request `CreateAssistant` builds for a marshalled payload. -/
def createAssistantRequest (payload : Json) : Request :=
  { method := "POST"
    url := "https://api.openai.com/v1/assistants"
    query := []
    headers := [("Authorization", "Bearer " ++ openaiAPIKey),
                ("Content-Type", "application/json"),
                ("OpenAI-Beta", "assistants=v2")]
    body := .json payload }

/-- `CreateAssistant` (part_001): creates an assistant; the response is
decoded into `map[string]interface` and the `id` entry (if it is a string)
is returned, `""` otherwise — with a nil error either way. -/
def CreateAssistant (params : CreateAssistantParams) (net : NetResult) :
    Except GoError String × List Sent :=
  match marshalCreateAssistantParams params with
  | none => (.error (.errorf "failed to marshal assistant payload: %w"), [])
  | some payload =>
    let req := createAssistantRequest payload
    match net with
    | .transportError => (.error (.errorf "assistant request failed: %w"), [.http req])
    | .success resp =>
      if resp.statusCode ≠ 200 then
        (.error (.statusError "assistant creation failed with status %s: %s"
            resp.status resp.body), [.http req])
      else
        match resp.body with
        | .obj gs =>
          let response := decodeGoValueFields gs
          let assistantID := match lookupLast "id" response with
                             | some (.str s) => s
                             | _ => ""
          (.ok assistantID, [.http req])
        | .null => (.ok "", [.http req])
        | _ => (.error (.errorf "failed to decode assistant response: %w"), [.http req])

/-- The request `DeleteAssistant` builds. -/
def deleteAssistantRequest (assistantID : String) : Request :=
  { method := "DELETE"
    url := "https://api.openai.com/v1/assistants/" ++ assistantID
    query := []
    headers := [("Authorization", "Bearer " ++ openaiAPIKey),
                ("OpenAI-Beta", "assistants=v2")]
    body := .empty }

/-- `DeleteAssistant` (part_001): deletes an assistant by ID. -/
def DeleteAssistant (assistantID : String) (net : NetResult) :
    Except GoError Unit × List Sent :=
  let req := deleteAssistantRequest assistantID
  match net with
  | .transportError => (.error (.errorf "delete request failed: %w"), [.http req])
  | .success resp =>
    if resp.statusCode ≠ 200 then
      (.error (.statusError "assistant deletion failed with status %s: %s"
          resp.status resp.body), [.http req])
    else
      (.ok (), [.http req])

end Part1

/-! ## unnamed/part_002 — a second, independent message-listing client -/

namespace Part2

/-- `ContentText` (part_002). -/
structure ContentText where
  Value : String
  Annotations : List GoValue
deriving Repr

/-- `MessageContent` (part_002). -/
structure MessageContent where
  «Type» : String
  Text : ContentText
deriving Repr

/-- `Message` (part_002): a single message in a thread. -/
structure Message where
  ID : String
  Object : String
  CreatedAt : Int
  AssistantID : Option String
  ThreadID : String
  RunID : Option String
  Role : String
  Content : List MessageContent
  Attachments : List GoValue
  Metadata : List (String × GoValue)
deriving Repr

/-- The Go zero value of `ContentText` (part_002). -/
def zeroContentText : ContentText := ⟨"", []⟩

/-- One step of decoding `ContentText` (part_002). -/
def contentTextStep (c : ContentText) : String × Json → Option ContentText
  | ("value", .str s) => some { c with Value := s }
  | ("value", .null) => some c
  | ("value", _) => none
  | ("annotations", .arr xs) => some { c with Annotations := decodeGoValueList xs }
  | ("annotations", .null) => some { c with Annotations := [] }
  | ("annotations", _) => none
  | (_, _) => some c

/-- `json.Unmarshal` into `ContentText` (part_002). -/
def decodeContentText : Json → Option ContentText
  | .obj fs => fs.foldlM contentTextStep zeroContentText
  | .null => some zeroContentText
  | _ => none

/-- The Go zero value of `MessageContent` (part_002). -/
def zeroMessageContent : MessageContent := ⟨"", zeroContentText⟩

/-- One step of decoding `MessageContent` (part_002). -/
def messageContentStep (c : MessageContent) : String × Json → Option MessageContent
  | ("type", .str s) => some { c with «Type» := s }
  | ("type", .null) => some c
  | ("type", _) => none
  | ("text", .null) => some c
  | ("text", v) => (decodeContentText v).map (fun t => { c with Text := t })
  | (_, _) => some c

/-- `json.Unmarshal` into `MessageContent` (part_002). -/
def decodeMessageContent : Json → Option MessageContent
  | .obj fs => fs.foldlM messageContentStep zeroMessageContent
  | .null => some zeroMessageContent
  | _ => none

/-- The Go zero value of `Message` (part_002). -/
def zeroMessage : Message := ⟨"", "", 0, none, "", none, "", [], [], []⟩

/-- One step of decoding `Message` (part_002). -/
def messageStep (m : Message) : String × Json → Option Message
  | ("id", .str s) => some { m with ID := s }
  | ("id", .null) => some m
  | ("id", _) => none
  | ("object", .str s) => some { m with Object := s }
  | ("object", .null) => some m
  | ("object", _) => none
  | ("created_at", .num n) => some { m with CreatedAt := n }
  | ("created_at", .null) => some m
  | ("created_at", _) => none
  | ("assistant_id", .str s) => some { m with AssistantID := some s }
  | ("assistant_id", .null) => some { m with AssistantID := none }
  | ("assistant_id", _) => none
  | ("thread_id", .str s) => some { m with ThreadID := s }
  | ("thread_id", .null) => some m
  | ("thread_id", _) => none
  | ("run_id", .str s) => some { m with RunID := some s }
  | ("run_id", .null) => some { m with RunID := none }
  | ("run_id", _) => none
  | ("role", .str s) => some { m with Role := s }
  | ("role", .null) => some m
  | ("role", _) => none
  | ("content", .arr xs) => (xs.mapM decodeMessageContent).map (fun l => { m with Content := l })
  | ("content", .null) => some { m with Content := [] }
  | ("content", _) => none
  | ("attachments", .arr xs) => some { m with Attachments := decodeGoValueList xs }
  | ("attachments", .null) => some { m with Attachments := [] }
  | ("attachments", _) => none
  | ("metadata", .obj gs) => some { m with Metadata := decodeGoValueFields gs }
  | ("metadata", .null) => some { m with Metadata := [] }
  | ("metadata", _) => none
  | (_, _) => some m

/-- `json.Unmarshal` into a `Message` (part_002). -/
def decodeMessage : Json → Option Message
  | .obj fs => fs.foldlM messageStep zeroMessage
  | .null => some zeroMessage
  | _ => none

/-- One step of decoding `ListMessages`'s anonymous wrapper (part_002). -/
def messageListDataStep (d : List Message) : String × Json → Option (List Message)
  | ("data", .arr xs) => xs.mapM decodeMessage
  | ("data", .null) => some d
  | ("data", _) => none
  | (_, _) => some d

/-- `json.Decode` into `ListMessages`'s anonymous wrapper (part_002). -/
def decodeMessageList : Json → Option (List Message)
  | .obj fs => fs.foldlM messageListDataStep []
  | .null => some []
  | _ => none

/-- The query parameters `ListMessages` (part_002) adds through
`url.Values`. -/
def listMessagesQuery (limit : Int) (order after before runID : String) :
    List (String × String) :=
  (if limit > 0 then [("limit", toString limit)] else []) ++
  (if order ≠ "" then [("order", order)] else []) ++
  (if after ≠ "" then [("after", after)] else []) ++
  (if before ≠ "" then [("before", before)] else []) ++
  (if runID ≠ "" then [("run_id", runID)] else [])

/-- The request `ListMessages` (part_002) builds. -/
def listMessagesRequest (threadID : String) (limit : Int)
    (order after before runID : String) : Request :=
  { method := "GET"
    url := "https://api.openai.com/v1/threads/" ++ threadID ++ "/messages"
    query := listMessagesQuery limit order after before runID
    headers := [("Authorization", "Bearer " ++ openaiAPIKey),
                ("Content-Type", "application/json"),
                ("OpenAI-Beta", "assistants=v2")]
    body := .empty }

/-- `ListMessages` (part_002): lists the messages of a thread. -/
def ListMessages (threadID : String) (limit : Int)
    (order after before runID : String) (net : NetResult) :
    Except GoError (List Message) × List Sent :=
  let req := listMessagesRequest threadID limit order after before runID
  match net with
  | .transportError => (.error (.errorf "request to list messages failed: %w"), [.http req])
  | .success resp =>
    if resp.statusCode ≠ 200 then
      (.error (.statusError "failed to list messages with status %s: %s"
          resp.status resp.body), [.http req])
    else
      match decodeMessageList resp.body with
      | none => (.error (.errorf "failed to decode messages response: %w"), [.http req])
      | some l => (.ok l, [.http req])

end Part2

/-! ## Go struct declarations as data

For comparing the duplicated type declarations across files, each struct
declaration is represented by its list of fields: field name, Go type
exactly as written in the source (braces escaped), and json tag. -/

/-- One field of a Go struct declaration. -/
structure GoField where
  name : String
  typ : String
  tag : String
deriving Repr, DecidableEq

/-- The declaration of `File` in src/files.go, lines 16-22. -/
def fileDeclFilesGo : List GoField :=
  [⟨"ID", "string", "id"⟩,
   ⟨"CreatedAt", "int64", "created_at"⟩,
   ⟨"Bytes", "int64", "bytes"⟩,
   ⟨"FileName", "string", "filename"⟩,
   ⟨"Purpose", "string", "purpose"⟩]

/-- The declaration of `File` in src/unnamed/part_000, lines 15-21. -/
def fileDeclPart000 : List GoField :=
  [⟨"ID", "string", "id"⟩,
   ⟨"CreatedAt", "int64", "created_at"⟩,
   ⟨"Bytes", "int64", "bytes"⟩,
   ⟨"FileName", "string", "filename"⟩,
   ⟨"Purpose", "string", "purpose"⟩]

/-- The declaration of `Message` in src/message.go, lines 12-23. -/
def messageDeclMessageGo : List GoField :=
  [⟨"ID", "string", "id"⟩,
   ⟨"Object", "string", "object"⟩,
   ⟨"CreatedAt", "int64", "created_at"⟩,
   ⟨"AssistantID", "*string", "assistant_id,omitempty"⟩,
   ⟨"ThreadID", "string", "thread_id"⟩,
   ⟨"RunID", "*string", "run_id,omitempty"⟩,
   ⟨"Role", "string", "role"⟩,
   ⟨"Content", "[]MessageContent", "content"⟩,
   ⟨"Attachments", "[]interface\x7b\x7d", "attachments,omitempty"⟩,
   ⟨"Metadata", "map[string]interface\x7b\x7d", "metadata,omitempty"⟩]

/-- The declaration of `Message` in src/unnamed/part_002, lines 11-22. -/
def messageDeclPart002 : List GoField :=
  [⟨"ID", "string", "id"⟩,
   ⟨"Object", "string", "object"⟩,
   ⟨"CreatedAt", "int64", "created_at"⟩,
   ⟨"AssistantID", "*string", "assistant_id,omitempty"⟩,
   ⟨"ThreadID", "string", "thread_id"⟩,
   ⟨"RunID", "*string", "run_id,omitempty"⟩,
   ⟨"Role", "string", "role"⟩,
   ⟨"Content", "[]MessageContent", "content"⟩,
   ⟨"Attachments", "[]interface\x7b\x7d", "attachments,omitempty"⟩,
   ⟨"Metadata", "map[string]interface\x7b\x7d", "metadata,omitempty"⟩]

/-- The body of the request carried by one `Sent` entry. -/
def sentBody : Sent → ReqBody
  | .http r => r.body
  | .sdk _ => .empty

/-! ## Theorems -/

/-- C2 counterexample: the claim asserts the two `File` declarations and
the two `Message` declarations are not structurally identical; in fact
both pairs are field-for-field identical (same names, same Go types, same
json tags), so the claim's incompatibility assertion is false. -/
theorem c2_counterexample :
    fileDeclFilesGo = fileDeclPart000 ∧ messageDeclMessageGo = messageDeclPart002 := by
  decide

/-- C2 (amended): the repository does contain duplicated declarations of
`File` (files.go and part_000) and of `Message` (message.go and part_002)
for the same entities, but the duplicates are structurally identical, not
incompatible. -/
theorem c2_duplicate_decls_identical :
    fileDeclFilesGo ≠ []
    ∧ fileDeclFilesGo = fileDeclPart000
    ∧ messageDeclMessageGo ≠ []
    ∧ messageDeclMessageGo = messageDeclPart002 := by
  decide

/-- C4: for every path and content, `UploadContent` sends exactly one
request, whose body is a multipart form of exactly two parts: the form
field `purpose` with value `user_data`, followed by the file part named
`file` with filename `path` and bytes `content`. -/
theorem c4_uploadContent_multipart_body (path : String) (content : List Nat)
    (net : NetResult) :
    ((FilesA.UploadContent path content net).snd).map sentBody
      = [ReqBody.multipart [MultipartPart.field "purpose" "user_data",
                            MultipartPart.file "file" path content]] := by
  cases net with
  | transportError => rfl
  | success resp =>
    simp only [FilesA.UploadContent]
    split
    · rfl
    · split <;> rfl

/-- C6: `UploadFile` (files.go) reads the bytes at the original path; if
the path ends in `.tsx` the filename sent in the form has that suffix
replaced by `.ts`, otherwise the filename is the path unchanged — in both
cases the uploaded bytes are the bytes read from the original path. -/
theorem c6_uploadFile_tsx_rename (fs : String → Option (List Nat)) (path : String)
    (content : List Nat) (net : NetResult) (h : fs path = some content) :
    (hasSuffix path ".tsx" = true →
      ((FilesA.UploadFile fs path net).snd).map sentBody
        = [ReqBody.multipart [MultipartPart.field "purpose" "user_data",
            MultipartPart.file "file" (trimSuffix path ".tsx" ++ ".ts") content]]) ∧
    (hasSuffix path ".tsx" = false →
      ((FilesA.UploadFile fs path net).snd).map sentBody
        = [ReqBody.multipart [MultipartPart.field "purpose" "user_data",
            MultipartPart.file "file" path content]]) := by
  constructor <;> intro he <;>
    simp only [FilesA.UploadFile, h, he, Bool.true_eq_false, if_true, if_false,
      Bool.false_eq_true, ite_false, ite_true] <;>
    exact c4_uploadContent_multipart_body _ content net

/-- C6 witness: a `.tsx` path is uploaded under the `.ts` name with the
original bytes, and a non-`.tsx` path is uploaded unchanged. -/
theorem c6_uploadFile_tsx_rename_witness :
    ((FilesA.UploadFile (fun _ => some [1, 2]) "a.tsx" .transportError).snd).map sentBody
      = [ReqBody.multipart [MultipartPart.field "purpose" "user_data",
          MultipartPart.file "file" "a.ts" [1, 2]]] ∧
    ((FilesA.UploadFile (fun _ => some [1, 2]) "b.go" .transportError).snd).map sentBody
      = [ReqBody.multipart [MultipartPart.field "purpose" "user_data",
          MultipartPart.file "file" "b.go" [1, 2]]] := by
  constructor
  · have h := (c6_uploadFile_tsx_rename (fun _ => some [1, 2]) "a.tsx" [1, 2]
      .transportError rfl).1 (by decide)
    simpa using h
  · exact (c6_uploadFile_tsx_rename (fun _ => some [1, 2]) "b.go" [1, 2]
      .transportError rfl).2 (by decide)

/-- C7: if any of `ThreadID`, `Role`, `Content` is empty, `CreateMessage`
returns an error and no message, and sends no HTTP request at all. -/
theorem c7_createMessage_validation (p : Msg.CreateMessageParams) (net : NetResult)
    (h : p.ThreadID = "" ∨ p.Role = "" ∨ p.Content = "") :
    isOk (Msg.CreateMessage p net).fst = false ∧ (Msg.CreateMessage p net).snd = [] := by
  unfold Msg.CreateMessage
  by_cases h1 : p.ThreadID = "" <;> by_cases h2 : p.Role = "" <;>
    by_cases h3 : p.Content = "" <;> simp [h1, h2, h3, isOk] <;> tauto

/-- C7 witness: empty `ThreadID` yields an error without a request. -/
theorem c7_createMessage_validation_witness :
    isOk (Msg.CreateMessage ⟨"", "user", "hi"⟩ .transportError).fst = false ∧
    (Msg.CreateMessage ⟨"", "user", "hi"⟩ .transportError).snd = [] :=
  c7_createMessage_validation ⟨"", "user", "hi"⟩ .transportError (Or.inl rfl)

/-- C10: on a 200 or 201 response whose body is a JSON object with a
`data` field, `CreateMessage` returns the `Message` decoded from that
`data` field. -/
theorem c10_createMessage_data_envelope (p : Msg.CreateMessageParams) (resp : HttpResp)
    (v : Json) (m : Msg.Message)
    (h1 : p.ThreadID ≠ "") (h2 : p.Role ≠ "") (h3 : p.Content ≠ "")
    (hs : resp.statusCode = 200 ∨ resp.statusCode = 201)
    (hb : resp.body = Json.obj [("data", v)])
    (hm : Msg.decodeMessage v = some m) :
    (Msg.CreateMessage p (.success resp)).fst = .ok m := by
  have hcond : ¬(resp.statusCode ≠ 200 ∧ resp.statusCode ≠ 201) := by
    rcases hs with h | h <;> simp [h]
  have hdec : Msg.decodeMessageResult (Json.obj [("data", v)]) = some m := by
    cases v <;>
      simpa [Msg.decodeMessageResult, Msg.messageDataStep, List.foldlM,
        Msg.decodeMessage] using hm
  simp [Msg.CreateMessage, h1, h2, h3, hcond, hb, hdec]

/-- C10 witness: a 201 response with a `data` envelope yields the decoded
message. -/
theorem c10_createMessage_data_envelope_witness :
    (Msg.CreateMessage ⟨"t", "user", "hi"⟩ (.success ⟨201, "201 Created",
        Json.obj [("data", Json.obj [("id", Json.str "m1")])]⟩)).fst
      = .ok ⟨"m1", "", 0, none, "", none, "", [], [], []⟩ :=
  c10_createMessage_data_envelope ⟨"t", "user", "hi"⟩
    ⟨201, "201 Created", Json.obj [("data", Json.obj [("id", Json.str "m1")])]⟩
    (Json.obj [("id", Json.str "m1")]) ⟨"m1", "", 0, none, "", none, "", [], [], []⟩
    (by decide) (by decide) (by decide) (Or.inr rfl) rfl rfl

/-- On success `CreateEmbedding` returns the lowercase hex SHA-1 of the
file content, whatever the SDK's embedding vectors were. -/
theorem createEmbedding_ok_hash (content : List Nat) (api : Emb.SdkResult) (r : String)
    (h : (Emb.CreateEmbedding (some content) api).fst = .ok r) : r = sha1Hex content := by
  cases api with
  | sdkError => simp [Emb.CreateEmbedding] at h
  | success resp =>
    simp only [Emb.CreateEmbedding] at h
    split at h <;> simp at h
    exact h.symm

/-- On success `CreateVectorForFile` returns the lowercase hex SHA-1 of
the file content, whatever the HTTP response carried. -/
theorem createVectorForFile_ok_hash (content : List Nat) (net : NetResult) (r : String)
    (h : (Emb.CreateVectorForFile (some content) net).fst = .ok r) : r = sha1Hex content := by
  cases net with
  | transportError => simp [Emb.CreateVectorForFile] at h
  | success resp =>
    simp only [Emb.CreateVectorForFile] at h
    repeat' split at h
    all_goals simp_all

/-- C3: both `CreateEmbedding` and `CreateVectorForFile` return, on
success, the lowercase hexadecimal SHA-1 digest of the file content; hence
any two successful invocations (of either function) on equal content
return equal IDs, independently of the embedding vectors in the responses. -/
theorem c3_embedding_id_is_content_hash :
    (∀ content api r, (Emb.CreateEmbedding (some content) api).fst = .ok r →
       r = sha1Hex content) ∧
    (∀ content net r, (Emb.CreateVectorForFile (some content) net).fst = .ok r →
       r = sha1Hex content) ∧
    (∀ ca cb api net ra rb,
       (Emb.CreateEmbedding (some ca) api).fst = .ok ra →
       (Emb.CreateVectorForFile (some cb) net).fst = .ok rb →
       ca = cb → ra = rb) := by
  refine ⟨createEmbedding_ok_hash, createVectorForFile_ok_hash, ?_⟩
  intro ca cb api net ra rb ha hb hcc
  rw [createEmbedding_ok_hash ca api ra ha, createVectorForFile_ok_hash cb net rb hb, hcc]

/-- C3 witness: on the three-byte content `abc`, both functions return the
SHA-1 test-vector digest, and the mixed pair agrees. -/
theorem c3_embedding_id_is_content_hash_witness :
    "a9993e364706816aba3e25717850c26c9cd0d89d" = sha1Hex (strBytes "abc") :=
  c3_embedding_id_is_content_hash.1 (strBytes "abc") (.success ⟨[⟨[0]⟩]⟩) _ rfl

/-- C5: each list function, on a 200 response whose body is a JSON object
with a `data` array whose elements decode, returns exactly the decoded
array, in order, with no error.  Both versions of `ListFiles` and of
`ListMessages` are covered. -/
theorem c5_list_functions_return_data_array :
    (∀ xs l resp, resp.statusCode = 200 →
       resp.body = Json.obj [("data", Json.arr xs)] →
       xs.mapM FilesA.decodeFile = some l →
       (FilesA.ListFiles (.success resp)).fst = .ok l) ∧
    (∀ xs l resp, resp.statusCode = 200 →
       resp.body = Json.obj [("data", Json.arr xs)] →
       xs.mapM Part0.decodeFile = some l →
       (Part0.ListFiles (.success resp)).fst = .ok l) ∧
    (∀ xs l resp, resp.statusCode = 200 →
       resp.body = Json.obj [("data", Json.arr xs)] →
       xs.mapM Part1.decodeAssistant = some l →
       (Part1.ListAssistants (.success resp)).fst = .ok l) ∧
    (∀ threadID limit order after before runID xs l resp, resp.statusCode = 200 →
       resp.body = Json.obj [("data", Json.arr xs)] →
       xs.mapM Msg.decodeMessage = some l →
       (Msg.ListMessages threadID limit order after before runID (.success resp)).fst
         = .ok l) ∧
    (∀ threadID limit order after before runID xs l resp, resp.statusCode = 200 →
       resp.body = Json.obj [("data", Json.arr xs)] →
       xs.mapM Part2.decodeMessage = some l →
       (Part2.ListMessages threadID limit order after before runID (.success resp)).fst
         = .ok l) ∧
    (∀ limit order after before xs l resp, resp.statusCode = 200 →
       resp.body = Json.obj [("data", Json.arr xs)] →
       xs.mapM VS.decodeVectorStore = some l →
       (VS.ListVectorStores limit order after before (.success resp)).fst = .ok l) ∧
    (∀ vectorStoreID xs l resp, resp.statusCode = 200 →
       resp.body = Json.obj [("data", Json.arr xs)] →
       xs.mapM FilesB.decodeVectorStoreFile = some l →
       (FilesB.ListVectorStoreFiles vectorStoreID (.success resp)).fst = .ok l) := by
  refine ⟨?_, ?_, ?_, ?_, ?_, ?_, ?_⟩
  · intro xs l resp hs hb hd
    simp only [List.mapM] at hd
    simp [FilesA.ListFiles, hs, hb, FilesA.decodeFileList, List.foldlM,
      FilesA.fileDataStep, hd]
  · intro xs l resp hs hb hd
    simp only [List.mapM] at hd
    simp [Part0.ListFiles, hs, hb, Part0.decodeFileList, List.foldlM,
      Part0.fileDataStep, hd]
  · intro xs l resp hs hb hd
    simp only [List.mapM] at hd
    simp [Part1.ListAssistants, hs, hb, Part1.decodeAssistantList, List.foldlM,
      Part1.assistantDataStep, hd]
  · intro threadID limit order after before runID xs l resp hs hb hd
    simp only [List.mapM] at hd
    simp [Msg.ListMessages, hs, hb, Msg.decodeMessageList, List.foldlM,
      Msg.messageListDataStep, hd]
  · intro threadID limit order after before runID xs l resp hs hb hd
    simp only [List.mapM] at hd
    simp [Part2.ListMessages, hs, hb, Part2.decodeMessageList, List.foldlM,
      Part2.messageListDataStep, hd]
  · intro limit order after before xs l resp hs hb hd
    simp only [List.mapM] at hd
    simp [VS.ListVectorStores, hs, hb, VS.decodeVectorStoreList, List.foldlM,
      VS.vsDataStep, hd]
  · intro vectorStoreID xs l resp hs hb hd
    simp only [List.mapM] at hd
    simp [FilesB.ListVectorStoreFiles, hs, hb, FilesB.decodeVectorStoreFileList,
      List.foldlM, FilesB.vsfDataStep, hd]

/-- C5 witness: a concrete one-element `data` array is returned decoded,
in order, by `ListFiles`. -/
theorem c5_list_functions_return_data_array_witness :
    (FilesA.ListFiles (.success ⟨200, "200 OK",
        Json.obj [("data", Json.arr [Json.obj [("id", Json.str "f1")]])]⟩)).fst
      = .ok [⟨"f1", 0, 0, "", ""⟩] :=
  c5_list_functions_return_data_array.1 [Json.obj [("id", Json.str "f1")]]
    [⟨"f1", 0, 0, "", ""⟩]
    ⟨200, "200 OK", Json.obj [("data", Json.arr [Json.obj [("id", Json.str "f1")]])]⟩
    rfl rfl rfl

/-! ## Per-function status-gate, trace, and error-path lemmas -/

theorem gate_FilesA_UploadContent (path : String) (content : List Nat) (resp : HttpResp)
    (h : isOk (FilesA.UploadContent path content (.success resp)).fst = true) : resp.statusCode = 200 := by
  by_cases hs : resp.statusCode = 200
  · exact hs
  · exfalso
    simp [FilesA.UploadContent, hs, isOk] at h

theorem trace_FilesA_UploadContent (path : String) (content : List Nat) (net : NetResult) :
    ((FilesA.UploadContent path content net).snd).length ≤ 1 := by
  cases net with
  | transportError => simp [FilesA.UploadContent]
  | success resp =>
    by_cases hs : resp.statusCode = 200 <;> simp [FilesA.UploadContent, hs] <;> (try split) <;> simp

theorem transport_FilesA_UploadContent (path : String) (content : List Nat) :
    isOk ((FilesA.UploadContent path content .transportError)).fst = false := by
  simp [FilesA.UploadContent, isOk]

theorem statusErr_FilesA_UploadContent (path : String) (content : List Nat) (resp : HttpResp) (hs : resp.statusCode ≠ 200) :
    isStatusError (FilesA.UploadContent path content (.success resp)).fst = true := by
  simp [FilesA.UploadContent, hs, isStatusError]

theorem gate_FilesA_ListFiles (resp : HttpResp)
    (h : isOk (FilesA.ListFiles (.success resp)).fst = true) : resp.statusCode = 200 := by
  by_cases hs : resp.statusCode = 200
  · exact hs
  · exfalso
    simp [FilesA.ListFiles, hs, isOk] at h

theorem trace_FilesA_ListFiles (net : NetResult) :
    ((FilesA.ListFiles net).snd).length ≤ 1 := by
  cases net with
  | transportError => simp [FilesA.ListFiles]
  | success resp =>
    by_cases hs : resp.statusCode = 200 <;> simp [FilesA.ListFiles, hs] <;> (try split) <;> simp

theorem transport_FilesA_ListFiles :
    isOk ((FilesA.ListFiles .transportError)).fst = false := by
  simp [FilesA.ListFiles, isOk]

theorem statusErr_FilesA_ListFiles (resp : HttpResp) (hs : resp.statusCode ≠ 200) :
    isStatusError (FilesA.ListFiles (.success resp)).fst = true := by
  simp [FilesA.ListFiles, hs, isStatusError]

theorem gate_FilesA_RetrieveFile (fileID : String) (resp : HttpResp)
    (h : isOk (FilesA.RetrieveFile fileID (.success resp)).fst = true) : resp.statusCode = 200 := by
  by_cases hs : resp.statusCode = 200
  · exact hs
  · exfalso
    simp [FilesA.RetrieveFile, hs, isOk] at h

theorem trace_FilesA_RetrieveFile (fileID : String) (net : NetResult) :
    ((FilesA.RetrieveFile fileID net).snd).length ≤ 1 := by
  cases net with
  | transportError => simp [FilesA.RetrieveFile]
  | success resp =>
    by_cases hs : resp.statusCode = 200 <;> simp [FilesA.RetrieveFile, hs] <;> (try split) <;> simp

theorem transport_FilesA_RetrieveFile (fileID : String) :
    isOk ((FilesA.RetrieveFile fileID .transportError)).fst = false := by
  simp [FilesA.RetrieveFile, isOk]

theorem statusErr_FilesA_RetrieveFile (fileID : String) (resp : HttpResp) (hs : resp.statusCode ≠ 200) :
    isStatusError (FilesA.RetrieveFile fileID (.success resp)).fst = true := by
  simp [FilesA.RetrieveFile, hs, isStatusError]

theorem gate_FilesA_DeleteFile (fileID : String) (resp : HttpResp)
    (h : isOk (FilesA.DeleteFile fileID (.success resp)).fst = true) : resp.statusCode = 200 := by
  by_cases hs : resp.statusCode = 200
  · exact hs
  · exfalso
    simp [FilesA.DeleteFile, hs, isOk] at h

theorem trace_FilesA_DeleteFile (fileID : String) (net : NetResult) :
    ((FilesA.DeleteFile fileID net).snd).length ≤ 1 := by
  cases net with
  | transportError => simp [FilesA.DeleteFile]
  | success resp =>
    by_cases hs : resp.statusCode = 200 <;> simp [FilesA.DeleteFile, hs] <;> (try split) <;> simp

theorem transport_FilesA_DeleteFile (fileID : String) :
    isOk ((FilesA.DeleteFile fileID .transportError)).fst = false := by
  simp [FilesA.DeleteFile, isOk]

theorem statusErr_FilesA_DeleteFile (fileID : String) (resp : HttpResp) (hs : resp.statusCode ≠ 200) :
    isStatusError (FilesA.DeleteFile fileID (.success resp)).fst = true := by
  simp [FilesA.DeleteFile, hs, isStatusError]

theorem gate_FilesB_ListVectorStoreFiles (vectorStoreID : String) (resp : HttpResp)
    (h : isOk (FilesB.ListVectorStoreFiles vectorStoreID (.success resp)).fst = true) : resp.statusCode = 200 := by
  by_cases hs : resp.statusCode = 200
  · exact hs
  · exfalso
    simp [FilesB.ListVectorStoreFiles, hs, isOk] at h

theorem trace_FilesB_ListVectorStoreFiles (vectorStoreID : String) (net : NetResult) :
    ((FilesB.ListVectorStoreFiles vectorStoreID net).snd).length ≤ 1 := by
  cases net with
  | transportError => simp [FilesB.ListVectorStoreFiles]
  | success resp =>
    by_cases hs : resp.statusCode = 200 <;> simp [FilesB.ListVectorStoreFiles, hs] <;> (try split) <;> simp

theorem transport_FilesB_ListVectorStoreFiles (vectorStoreID : String) :
    isOk ((FilesB.ListVectorStoreFiles vectorStoreID .transportError)).fst = false := by
  simp [FilesB.ListVectorStoreFiles, isOk]

theorem statusErr_FilesB_ListVectorStoreFiles (vectorStoreID : String) (resp : HttpResp) (hs : resp.statusCode ≠ 200) :
    isStatusError (FilesB.ListVectorStoreFiles vectorStoreID (.success resp)).fst = true := by
  simp [FilesB.ListVectorStoreFiles, hs, isStatusError]

theorem gate_FilesB_RetrieveVectorStoreFile (vectorStoreID fileID : String) (resp : HttpResp)
    (h : isOk (FilesB.RetrieveVectorStoreFile vectorStoreID fileID (.success resp)).fst = true) : resp.statusCode = 200 := by
  by_cases hs : resp.statusCode = 200
  · exact hs
  · exfalso
    simp [FilesB.RetrieveVectorStoreFile, hs, isOk] at h

theorem trace_FilesB_RetrieveVectorStoreFile (vectorStoreID fileID : String) (net : NetResult) :
    ((FilesB.RetrieveVectorStoreFile vectorStoreID fileID net).snd).length ≤ 1 := by
  cases net with
  | transportError => simp [FilesB.RetrieveVectorStoreFile]
  | success resp =>
    by_cases hs : resp.statusCode = 200 <;> simp [FilesB.RetrieveVectorStoreFile, hs] <;> (try split) <;> simp

theorem transport_FilesB_RetrieveVectorStoreFile (vectorStoreID fileID : String) :
    isOk ((FilesB.RetrieveVectorStoreFile vectorStoreID fileID .transportError)).fst = false := by
  simp [FilesB.RetrieveVectorStoreFile, isOk]

theorem statusErr_FilesB_RetrieveVectorStoreFile (vectorStoreID fileID : String) (resp : HttpResp) (hs : resp.statusCode ≠ 200) :
    isStatusError (FilesB.RetrieveVectorStoreFile vectorStoreID fileID (.success resp)).fst = true := by
  simp [FilesB.RetrieveVectorStoreFile, hs, isStatusError]

theorem gate_FilesB_DeleteVectorStoreFile (vectorStoreID fileID : String) (resp : HttpResp)
    (h : isOk (FilesB.DeleteVectorStoreFile vectorStoreID fileID (.success resp)).fst = true) : resp.statusCode = 200 := by
  by_cases hs : resp.statusCode = 200
  · exact hs
  · exfalso
    simp [FilesB.DeleteVectorStoreFile, hs, isOk] at h

theorem trace_FilesB_DeleteVectorStoreFile (vectorStoreID fileID : String) (net : NetResult) :
    ((FilesB.DeleteVectorStoreFile vectorStoreID fileID net).snd).length ≤ 1 := by
  cases net with
  | transportError => simp [FilesB.DeleteVectorStoreFile]
  | success resp =>
    by_cases hs : resp.statusCode = 200 <;> simp [FilesB.DeleteVectorStoreFile, hs] <;> (try split) <;> simp

theorem transport_FilesB_DeleteVectorStoreFile (vectorStoreID fileID : String) :
    isOk ((FilesB.DeleteVectorStoreFile vectorStoreID fileID .transportError)).fst = false := by
  simp [FilesB.DeleteVectorStoreFile, isOk]

theorem statusErr_FilesB_DeleteVectorStoreFile (vectorStoreID fileID : String) (resp : HttpResp) (hs : resp.statusCode ≠ 200) :
    isStatusError (FilesB.DeleteVectorStoreFile vectorStoreID fileID (.success resp)).fst = true := by
  simp [FilesB.DeleteVectorStoreFile, hs, isStatusError]

theorem gate_Msg_ListMessages (threadID : String) (limit : Int) (order after before runID : String) (resp : HttpResp)
    (h : isOk (Msg.ListMessages threadID limit order after before runID (.success resp)).fst = true) : resp.statusCode = 200 := by
  by_cases hs : resp.statusCode = 200
  · exact hs
  · exfalso
    simp [Msg.ListMessages, hs, isOk] at h

theorem trace_Msg_ListMessages (threadID : String) (limit : Int) (order after before runID : String) (net : NetResult) :
    ((Msg.ListMessages threadID limit order after before runID net).snd).length ≤ 1 := by
  cases net with
  | transportError => simp [Msg.ListMessages]
  | success resp =>
    by_cases hs : resp.statusCode = 200 <;> simp [Msg.ListMessages, hs] <;> (try split) <;> simp

theorem transport_Msg_ListMessages (threadID : String) (limit : Int) (order after before runID : String) :
    isOk ((Msg.ListMessages threadID limit order after before runID .transportError)).fst = false := by
  simp [Msg.ListMessages, isOk]

theorem statusErr_Msg_ListMessages (threadID : String) (limit : Int) (order after before runID : String) (resp : HttpResp) (hs : resp.statusCode ≠ 200) :
    isStatusError (Msg.ListMessages threadID limit order after before runID (.success resp)).fst = true := by
  simp [Msg.ListMessages, hs, isStatusError]

theorem gate_Runs_RetrieveRun (threadID runID : String) (resp : HttpResp)
    (h : isOk (Runs.RetrieveRun threadID runID (.success resp)).fst = true) : resp.statusCode = 200 := by
  by_cases hs : resp.statusCode = 200
  · exact hs
  · exfalso
    simp [Runs.RetrieveRun, hs, isOk] at h

theorem trace_Runs_RetrieveRun (threadID runID : String) (net : NetResult) :
    ((Runs.RetrieveRun threadID runID net).snd).length ≤ 1 := by
  cases net with
  | transportError => simp [Runs.RetrieveRun]
  | success resp =>
    by_cases hs : resp.statusCode = 200 <;> simp [Runs.RetrieveRun, hs] <;> (try split) <;> simp

theorem transport_Runs_RetrieveRun (threadID runID : String) :
    isOk ((Runs.RetrieveRun threadID runID .transportError)).fst = false := by
  simp [Runs.RetrieveRun, isOk]

theorem statusErr_Runs_RetrieveRun (threadID runID : String) (resp : HttpResp) (hs : resp.statusCode ≠ 200) :
    isStatusError (Runs.RetrieveRun threadID runID (.success resp)).fst = true := by
  simp [Runs.RetrieveRun, hs, isStatusError]

theorem gate_VS_CreateVectorStore (params : VS.CreateVectorStoreParams) (resp : HttpResp)
    (h : isOk (VS.CreateVectorStore params (.success resp)).fst = true) : resp.statusCode = 200 := by
  by_cases hs : resp.statusCode = 200
  · exact hs
  · exfalso
    simp [VS.CreateVectorStore, hs, isOk] at h

theorem trace_VS_CreateVectorStore (params : VS.CreateVectorStoreParams) (net : NetResult) :
    ((VS.CreateVectorStore params net).snd).length ≤ 1 := by
  cases net with
  | transportError => simp [VS.CreateVectorStore]
  | success resp =>
    by_cases hs : resp.statusCode = 200 <;> simp [VS.CreateVectorStore, hs] <;> (try split) <;> simp

theorem transport_VS_CreateVectorStore (params : VS.CreateVectorStoreParams) :
    isOk ((VS.CreateVectorStore params .transportError)).fst = false := by
  simp [VS.CreateVectorStore, isOk]

theorem statusErr_VS_CreateVectorStore (params : VS.CreateVectorStoreParams) (resp : HttpResp) (hs : resp.statusCode ≠ 200) :
    isStatusError (VS.CreateVectorStore params (.success resp)).fst = true := by
  simp [VS.CreateVectorStore, hs, isStatusError]

theorem gate_VS_ListVectorStores (limit : Int) (order after before : String) (resp : HttpResp)
    (h : isOk (VS.ListVectorStores limit order after before (.success resp)).fst = true) : resp.statusCode = 200 := by
  by_cases hs : resp.statusCode = 200
  · exact hs
  · exfalso
    simp [VS.ListVectorStores, hs, isOk] at h

theorem trace_VS_ListVectorStores (limit : Int) (order after before : String) (net : NetResult) :
    ((VS.ListVectorStores limit order after before net).snd).length ≤ 1 := by
  cases net with
  | transportError => simp [VS.ListVectorStores]
  | success resp =>
    by_cases hs : resp.statusCode = 200 <;> simp [VS.ListVectorStores, hs] <;> (try split) <;> simp

theorem transport_VS_ListVectorStores (limit : Int) (order after before : String) :
    isOk ((VS.ListVectorStores limit order after before .transportError)).fst = false := by
  simp [VS.ListVectorStores, isOk]

theorem statusErr_VS_ListVectorStores (limit : Int) (order after before : String) (resp : HttpResp) (hs : resp.statusCode ≠ 200) :
    isStatusError (VS.ListVectorStores limit order after before (.success resp)).fst = true := by
  simp [VS.ListVectorStores, hs, isStatusError]

theorem gate_VS_RetrieveVectorStore (vectorStoreID : String) (resp : HttpResp)
    (h : isOk (VS.RetrieveVectorStore vectorStoreID (.success resp)).fst = true) : resp.statusCode = 200 := by
  by_cases hs : resp.statusCode = 200
  · exact hs
  · exfalso
    simp [VS.RetrieveVectorStore, hs, isOk] at h

theorem trace_VS_RetrieveVectorStore (vectorStoreID : String) (net : NetResult) :
    ((VS.RetrieveVectorStore vectorStoreID net).snd).length ≤ 1 := by
  cases net with
  | transportError => simp [VS.RetrieveVectorStore]
  | success resp =>
    by_cases hs : resp.statusCode = 200 <;> simp [VS.RetrieveVectorStore, hs] <;> (try split) <;> simp

theorem transport_VS_RetrieveVectorStore (vectorStoreID : String) :
    isOk ((VS.RetrieveVectorStore vectorStoreID .transportError)).fst = false := by
  simp [VS.RetrieveVectorStore, isOk]

theorem statusErr_VS_RetrieveVectorStore (vectorStoreID : String) (resp : HttpResp) (hs : resp.statusCode ≠ 200) :
    isStatusError (VS.RetrieveVectorStore vectorStoreID (.success resp)).fst = true := by
  simp [VS.RetrieveVectorStore, hs, isStatusError]

theorem gate_VS_DeleteVectorStore (vectorStoreID : String) (resp : HttpResp)
    (h : isOk (VS.DeleteVectorStore vectorStoreID (.success resp)).fst = true) : resp.statusCode = 200 := by
  by_cases hs : resp.statusCode = 200
  · exact hs
  · exfalso
    simp [VS.DeleteVectorStore, hs, isOk] at h

theorem trace_VS_DeleteVectorStore (vectorStoreID : String) (net : NetResult) :
    ((VS.DeleteVectorStore vectorStoreID net).snd).length ≤ 1 := by
  cases net with
  | transportError => simp [VS.DeleteVectorStore]
  | success resp =>
    by_cases hs : resp.statusCode = 200 <;> simp [VS.DeleteVectorStore, hs] <;> (try split) <;> simp

theorem transport_VS_DeleteVectorStore (vectorStoreID : String) :
    isOk ((VS.DeleteVectorStore vectorStoreID .transportError)).fst = false := by
  simp [VS.DeleteVectorStore, isOk]

theorem statusErr_VS_DeleteVectorStore (vectorStoreID : String) (resp : HttpResp) (hs : resp.statusCode ≠ 200) :
    isStatusError (VS.DeleteVectorStore vectorStoreID (.success resp)).fst = true := by
  simp [VS.DeleteVectorStore, hs, isStatusError]

theorem gate_Part0_ListFiles (resp : HttpResp)
    (h : isOk (Part0.ListFiles (.success resp)).fst = true) : resp.statusCode = 200 := by
  by_cases hs : resp.statusCode = 200
  · exact hs
  · exfalso
    simp [Part0.ListFiles, hs, isOk] at h

theorem trace_Part0_ListFiles (net : NetResult) :
    ((Part0.ListFiles net).snd).length ≤ 1 := by
  cases net with
  | transportError => simp [Part0.ListFiles]
  | success resp =>
    by_cases hs : resp.statusCode = 200 <;> simp [Part0.ListFiles, hs] <;> (try split) <;> simp

theorem transport_Part0_ListFiles :
    isOk ((Part0.ListFiles .transportError)).fst = false := by
  simp [Part0.ListFiles, isOk]

theorem statusErr_Part0_ListFiles (resp : HttpResp) (hs : resp.statusCode ≠ 200) :
    isStatusError (Part0.ListFiles (.success resp)).fst = true := by
  simp [Part0.ListFiles, hs, isStatusError]

theorem gate_Part0_RetrieveFile (fileID : String) (resp : HttpResp)
    (h : isOk (Part0.RetrieveFile fileID (.success resp)).fst = true) : resp.statusCode = 200 := by
  by_cases hs : resp.statusCode = 200
  · exact hs
  · exfalso
    simp [Part0.RetrieveFile, hs, isOk] at h

theorem trace_Part0_RetrieveFile (fileID : String) (net : NetResult) :
    ((Part0.RetrieveFile fileID net).snd).length ≤ 1 := by
  cases net with
  | transportError => simp [Part0.RetrieveFile]
  | success resp =>
    by_cases hs : resp.statusCode = 200 <;> simp [Part0.RetrieveFile, hs] <;> (try split) <;> simp

theorem transport_Part0_RetrieveFile (fileID : String) :
    isOk ((Part0.RetrieveFile fileID .transportError)).fst = false := by
  simp [Part0.RetrieveFile, isOk]

theorem statusErr_Part0_RetrieveFile (fileID : String) (resp : HttpResp) (hs : resp.statusCode ≠ 200) :
    isStatusError (Part0.RetrieveFile fileID (.success resp)).fst = true := by
  simp [Part0.RetrieveFile, hs, isStatusError]

theorem gate_Part0_DeleteFile (fileID : String) (resp : HttpResp)
    (h : isOk (Part0.DeleteFile fileID (.success resp)).fst = true) : resp.statusCode = 200 := by
  by_cases hs : resp.statusCode = 200
  · exact hs
  · exfalso
    simp [Part0.DeleteFile, hs, isOk] at h

theorem trace_Part0_DeleteFile (fileID : String) (net : NetResult) :
    ((Part0.DeleteFile fileID net).snd).length ≤ 1 := by
  cases net with
  | transportError => simp [Part0.DeleteFile]
  | success resp =>
    by_cases hs : resp.statusCode = 200 <;> simp [Part0.DeleteFile, hs] <;> (try split) <;> simp

theorem transport_Part0_DeleteFile (fileID : String) :
    isOk ((Part0.DeleteFile fileID .transportError)).fst = false := by
  simp [Part0.DeleteFile, isOk]

theorem statusErr_Part0_DeleteFile (fileID : String) (resp : HttpResp) (hs : resp.statusCode ≠ 200) :
    isStatusError (Part0.DeleteFile fileID (.success resp)).fst = true := by
  simp [Part0.DeleteFile, hs, isStatusError]

theorem gate_Part1_ListAssistants (resp : HttpResp)
    (h : isOk (Part1.ListAssistants (.success resp)).fst = true) : resp.statusCode = 200 := by
  by_cases hs : resp.statusCode = 200
  · exact hs
  · exfalso
    simp [Part1.ListAssistants, hs, isOk] at h

theorem trace_Part1_ListAssistants (net : NetResult) :
    ((Part1.ListAssistants net).snd).length ≤ 1 := by
  cases net with
  | transportError => simp [Part1.ListAssistants]
  | success resp =>
    by_cases hs : resp.statusCode = 200 <;> simp [Part1.ListAssistants, hs] <;> (try split) <;> simp

theorem transport_Part1_ListAssistants :
    isOk ((Part1.ListAssistants .transportError)).fst = false := by
  simp [Part1.ListAssistants, isOk]

theorem statusErr_Part1_ListAssistants (resp : HttpResp) (hs : resp.statusCode ≠ 200) :
    isStatusError (Part1.ListAssistants (.success resp)).fst = true := by
  simp [Part1.ListAssistants, hs, isStatusError]

theorem gate_Part1_DeleteAssistant (assistantID : String) (resp : HttpResp)
    (h : isOk (Part1.DeleteAssistant assistantID (.success resp)).fst = true) : resp.statusCode = 200 := by
  by_cases hs : resp.statusCode = 200
  · exact hs
  · exfalso
    simp [Part1.DeleteAssistant, hs, isOk] at h

theorem trace_Part1_DeleteAssistant (assistantID : String) (net : NetResult) :
    ((Part1.DeleteAssistant assistantID net).snd).length ≤ 1 := by
  cases net with
  | transportError => simp [Part1.DeleteAssistant]
  | success resp =>
    by_cases hs : resp.statusCode = 200 <;> simp [Part1.DeleteAssistant, hs] <;> (try split) <;> simp

theorem transport_Part1_DeleteAssistant (assistantID : String) :
    isOk ((Part1.DeleteAssistant assistantID .transportError)).fst = false := by
  simp [Part1.DeleteAssistant, isOk]

theorem statusErr_Part1_DeleteAssistant (assistantID : String) (resp : HttpResp) (hs : resp.statusCode ≠ 200) :
    isStatusError (Part1.DeleteAssistant assistantID (.success resp)).fst = true := by
  simp [Part1.DeleteAssistant, hs, isStatusError]

theorem gate_Part2_ListMessages (threadID : String) (limit : Int) (order after before runID : String) (resp : HttpResp)
    (h : isOk (Part2.ListMessages threadID limit order after before runID (.success resp)).fst = true) : resp.statusCode = 200 := by
  by_cases hs : resp.statusCode = 200
  · exact hs
  · exfalso
    simp [Part2.ListMessages, hs, isOk] at h

theorem trace_Part2_ListMessages (threadID : String) (limit : Int) (order after before runID : String) (net : NetResult) :
    ((Part2.ListMessages threadID limit order after before runID net).snd).length ≤ 1 := by
  cases net with
  | transportError => simp [Part2.ListMessages]
  | success resp =>
    by_cases hs : resp.statusCode = 200 <;> simp [Part2.ListMessages, hs] <;> (try split) <;> simp

theorem transport_Part2_ListMessages (threadID : String) (limit : Int) (order after before runID : String) :
    isOk ((Part2.ListMessages threadID limit order after before runID .transportError)).fst = false := by
  simp [Part2.ListMessages, isOk]

theorem statusErr_Part2_ListMessages (threadID : String) (limit : Int) (order after before runID : String) (resp : HttpResp) (hs : resp.statusCode ≠ 200) :
    isStatusError (Part2.ListMessages threadID limit order after before runID (.success resp)).fst = true := by
  simp [Part2.ListMessages, hs, isStatusError]

theorem gate_FilesA_UploadFile (fs : String → Option (List Nat)) (path : String)
    (resp : HttpResp)
    (h : isOk (FilesA.UploadFile fs path (.success resp)).fst = true) :
    resp.statusCode = 200 := by
  cases hc : fs path with
  | none => rw [FilesA.UploadFile, hc] at h; simp [isOk] at h
  | some content =>
    rw [FilesA.UploadFile, hc] at h
    exact gate_FilesA_UploadContent _ content resp h

theorem trace_FilesA_UploadFile (fs : String → Option (List Nat)) (path : String)
    (net : NetResult) : ((FilesA.UploadFile fs path net).snd).length ≤ 1 := by
  cases hc : fs path with
  | none => simp [FilesA.UploadFile, hc]
  | some content =>
    rw [FilesA.UploadFile, hc]
    exact trace_FilesA_UploadContent _ content net

theorem transport_FilesA_UploadFile (fs : String → Option (List Nat)) (path : String) :
    isOk (FilesA.UploadFile fs path .transportError).fst = false := by
  cases hc : fs path with
  | none => simp [FilesA.UploadFile, hc, isOk]
  | some content =>
    rw [FilesA.UploadFile, hc]
    exact transport_FilesA_UploadContent _ content

theorem statusErr_FilesA_UploadFile (fs : String → Option (List Nat)) (path : String)
    (content : List Nat) (hc : fs path = some content) (resp : HttpResp)
    (hs : resp.statusCode ≠ 200) :
    isStatusError (FilesA.UploadFile fs path (.success resp)).fst = true := by
  rw [FilesA.UploadFile, hc]
  exact statusErr_FilesA_UploadContent _ content resp hs

theorem presend_FilesA_UploadFile (fs : String → Option (List Nat)) (path : String)
    (net : NetResult) (hc : fs path = none) :
    isOk (FilesA.UploadFile fs path net).fst = false ∧
    (FilesA.UploadFile fs path net).snd = [] := by
  simp [FilesA.UploadFile, hc, isOk]

theorem gate_Part0_UploadFile (fs : String → Option (List Nat)) (filePath : String)
    (resp : HttpResp)
    (h : isOk (Part0.UploadFile fs filePath (.success resp)).fst = true) :
    resp.statusCode = 200 := by
  by_cases hs : resp.statusCode = 200
  · exact hs
  · exfalso
    cases hc : fs filePath <;> simp [Part0.UploadFile, hc, hs, isOk] at h

theorem trace_Part0_UploadFile (fs : String → Option (List Nat)) (filePath : String)
    (net : NetResult) : ((Part0.UploadFile fs filePath net).snd).length ≤ 1 := by
  cases hc : fs filePath with
  | none => simp [Part0.UploadFile, hc]
  | some content =>
    cases net with
    | transportError => simp [Part0.UploadFile, hc]
    | success resp =>
      by_cases hs : resp.statusCode = 200 <;> simp [Part0.UploadFile, hc, hs] <;>
        (try split) <;> simp

theorem transport_Part0_UploadFile (fs : String → Option (List Nat)) (filePath : String) :
    isOk (Part0.UploadFile fs filePath .transportError).fst = false := by
  cases hc : fs filePath <;> simp [Part0.UploadFile, hc, isOk]

theorem statusErr_Part0_UploadFile (fs : String → Option (List Nat)) (filePath : String)
    (content : List Nat) (hc : fs filePath = some content) (resp : HttpResp)
    (hs : resp.statusCode ≠ 200) :
    isStatusError (Part0.UploadFile fs filePath (.success resp)).fst = true := by
  simp [Part0.UploadFile, hc, hs, isStatusError]

theorem presend_Part0_UploadFile (fs : String → Option (List Nat)) (filePath : String)
    (net : NetResult) (hc : fs filePath = none) :
    isOk (Part0.UploadFile fs filePath net).fst = false ∧
    (Part0.UploadFile fs filePath net).snd = [] := by
  simp [Part0.UploadFile, hc, isOk]

theorem gate_Emb_CreateVectorForFile (fileContent : Option (List Nat)) (resp : HttpResp)
    (h : isOk (Emb.CreateVectorForFile fileContent (.success resp)).fst = true) :
    resp.statusCode = 200 := by
  by_cases hs : resp.statusCode = 200
  · exact hs
  · exfalso
    cases fileContent <;> simp [Emb.CreateVectorForFile, hs, isOk] at h

theorem trace_Emb_CreateVectorForFile (fileContent : Option (List Nat)) (net : NetResult) :
    ((Emb.CreateVectorForFile fileContent net).snd).length ≤ 1 := by
  cases fileContent with
  | none => simp [Emb.CreateVectorForFile]
  | some content =>
    cases net with
    | transportError => simp [Emb.CreateVectorForFile]
    | success resp =>
      by_cases hs : resp.statusCode = 200 <;> simp [Emb.CreateVectorForFile, hs]
      all_goals repeat' split
      all_goals simp

theorem transport_Emb_CreateVectorForFile (fileContent : Option (List Nat)) :
    isOk (Emb.CreateVectorForFile fileContent .transportError).fst = false := by
  cases fileContent <;> simp [Emb.CreateVectorForFile, isOk]

theorem statusErr_Emb_CreateVectorForFile (content : List Nat) (resp : HttpResp)
    (hs : resp.statusCode ≠ 200) :
    isStatusError (Emb.CreateVectorForFile (some content) (.success resp)).fst = true := by
  simp [Emb.CreateVectorForFile, hs, isStatusError]

theorem presend_Emb_CreateVectorForFile (net : NetResult) :
    isOk (Emb.CreateVectorForFile none net).fst = false ∧
    (Emb.CreateVectorForFile none net).snd = [] := by
  simp [Emb.CreateVectorForFile, isOk]

theorem trace_Emb_CreateEmbedding (fileContent : Option (List Nat)) (api : Emb.SdkResult) :
    ((Emb.CreateEmbedding fileContent api).snd).length ≤ 1 := by
  cases fileContent with
  | none => simp [Emb.CreateEmbedding]
  | some content =>
    cases api with
    | sdkError => simp [Emb.CreateEmbedding]
    | success resp =>
      simp only [Emb.CreateEmbedding]
      split <;> simp

theorem sdkErr_Emb_CreateEmbedding (content : List Nat) :
    isOk (Emb.CreateEmbedding (some content) .sdkError).fst = false := by
  simp [Emb.CreateEmbedding, isOk]

theorem presend_Emb_CreateEmbedding (api : Emb.SdkResult) :
    isOk (Emb.CreateEmbedding none api).fst = false ∧
    (Emb.CreateEmbedding none api).snd = [] := by
  simp [Emb.CreateEmbedding, isOk]

theorem gate_FilesC_CreateThread (params : FilesC.CreateThreadParams) (resp : HttpResp)
    (h : isOk (FilesC.CreateThread params (.success resp)).fst = true) :
    resp.statusCode = 200 := by
  by_cases hs : resp.statusCode = 200
  · exact hs
  · exfalso
    cases hm : FilesC.marshalCreateThreadParams params <;>
      simp [FilesC.CreateThread, hm, hs, isOk] at h

theorem trace_FilesC_CreateThread (params : FilesC.CreateThreadParams) (net : NetResult) :
    ((FilesC.CreateThread params net).snd).length ≤ 1 := by
  cases hm : FilesC.marshalCreateThreadParams params with
  | none => simp [FilesC.CreateThread, hm]
  | some payload =>
    cases net with
    | transportError => simp [FilesC.CreateThread, hm]
    | success resp =>
      by_cases hs : resp.statusCode = 200 <;> simp [FilesC.CreateThread, hm, hs] <;>
        (try split) <;> simp

theorem transport_FilesC_CreateThread (params : FilesC.CreateThreadParams) :
    isOk (FilesC.CreateThread params .transportError).fst = false := by
  cases hm : FilesC.marshalCreateThreadParams params <;>
    simp [FilesC.CreateThread, hm, isOk]

theorem statusErr_FilesC_CreateThread (params : FilesC.CreateThreadParams) (payload : Json)
    (hm : FilesC.marshalCreateThreadParams params = some payload) (resp : HttpResp)
    (hs : resp.statusCode ≠ 200) :
    isStatusError (FilesC.CreateThread params (.success resp)).fst = true := by
  simp [FilesC.CreateThread, hm, hs, isStatusError]

theorem presend_FilesC_CreateThread (params : FilesC.CreateThreadParams) (net : NetResult)
    (hm : FilesC.marshalCreateThreadParams params = none) :
    isOk (FilesC.CreateThread params net).fst = false ∧
    (FilesC.CreateThread params net).snd = [] := by
  simp [FilesC.CreateThread, hm, isOk]

theorem gate_Runs_CreateRun (threadID : String) (params : Runs.CreateRunParams)
    («include» : List String) (resp : HttpResp)
    (h : isOk (Runs.CreateRun threadID params «include» (.success resp)).fst = true) :
    resp.statusCode = 200 := by
  by_cases hs : resp.statusCode = 200
  · exact hs
  · exfalso
    cases hm : Runs.marshalCreateRunParams params <;>
      simp [Runs.CreateRun, hm, hs, isOk] at h

theorem trace_Runs_CreateRun (threadID : String) (params : Runs.CreateRunParams)
    («include» : List String) (net : NetResult) :
    ((Runs.CreateRun threadID params «include» net).snd).length ≤ 1 := by
  cases hm : Runs.marshalCreateRunParams params with
  | none => simp [Runs.CreateRun, hm]
  | some payload =>
    cases net with
    | transportError => simp [Runs.CreateRun, hm]
    | success resp =>
      by_cases hs : resp.statusCode = 200 <;> simp [Runs.CreateRun, hm, hs] <;>
        (try split) <;> simp

theorem transport_Runs_CreateRun (threadID : String) (params : Runs.CreateRunParams)
    («include» : List String) :
    isOk (Runs.CreateRun threadID params «include» .transportError).fst = false := by
  cases hm : Runs.marshalCreateRunParams params <;> simp [Runs.CreateRun, hm, isOk]

theorem statusErr_Runs_CreateRun (threadID : String) (params : Runs.CreateRunParams)
    («include» : List String) (payload : Json)
    (hm : Runs.marshalCreateRunParams params = some payload) (resp : HttpResp)
    (hs : resp.statusCode ≠ 200) :
    isStatusError (Runs.CreateRun threadID params «include» (.success resp)).fst = true := by
  simp [Runs.CreateRun, hm, hs, isStatusError]

theorem presend_Runs_CreateRun (threadID : String) (params : Runs.CreateRunParams)
    («include» : List String) (net : NetResult)
    (hm : Runs.marshalCreateRunParams params = none) :
    isOk (Runs.CreateRun threadID params «include» net).fst = false ∧
    (Runs.CreateRun threadID params «include» net).snd = [] := by
  simp [Runs.CreateRun, hm, isOk]

theorem gate_Part1_CreateAssistant (params : Part1.CreateAssistantParams) (resp : HttpResp)
    (h : isOk (Part1.CreateAssistant params (.success resp)).fst = true) :
    resp.statusCode = 200 := by
  by_cases hs : resp.statusCode = 200
  · exact hs
  · exfalso
    cases hm : Part1.marshalCreateAssistantParams params <;>
      simp [Part1.CreateAssistant, hm, hs, isOk] at h

theorem trace_Part1_CreateAssistant (params : Part1.CreateAssistantParams) (net : NetResult) :
    ((Part1.CreateAssistant params net).snd).length ≤ 1 := by
  cases hm : Part1.marshalCreateAssistantParams params with
  | none => simp [Part1.CreateAssistant, hm]
  | some payload =>
    cases net with
    | transportError => simp [Part1.CreateAssistant, hm]
    | success resp =>
      by_cases hs : resp.statusCode = 200 <;> simp [Part1.CreateAssistant, hm, hs]
      all_goals repeat' split
      all_goals simp

theorem transport_Part1_CreateAssistant (params : Part1.CreateAssistantParams) :
    isOk (Part1.CreateAssistant params .transportError).fst = false := by
  cases hm : Part1.marshalCreateAssistantParams params <;>
    simp [Part1.CreateAssistant, hm, isOk]

theorem statusErr_Part1_CreateAssistant (params : Part1.CreateAssistantParams)
    (payload : Json) (hm : Part1.marshalCreateAssistantParams params = some payload)
    (resp : HttpResp) (hs : resp.statusCode ≠ 200) :
    isStatusError (Part1.CreateAssistant params (.success resp)).fst = true := by
  simp [Part1.CreateAssistant, hm, hs, isStatusError]

theorem presend_Part1_CreateAssistant (params : Part1.CreateAssistantParams)
    (net : NetResult) (hm : Part1.marshalCreateAssistantParams params = none) :
    isOk (Part1.CreateAssistant params net).fst = false ∧
    (Part1.CreateAssistant params net).snd = [] := by
  simp [Part1.CreateAssistant, hm, isOk]

theorem gate_FilesB_CreateVectorStoreFile (vectorStoreID fileID : String)
    (chunkingStrategy : List (String × GoValue)) (resp : HttpResp)
    (h : isOk (FilesB.CreateVectorStoreFile vectorStoreID fileID chunkingStrategy
        (.success resp)).fst = true) :
    resp.statusCode = 200 := by
  by_cases hs : resp.statusCode = 200
  · exact hs
  · exfalso
    cases hm : marshalGoValue (.map [("file_id", GoValue.str fileID),
        ("chunking_strategy", GoValue.map chunkingStrategy)]) with
    | none => simp [FilesB.CreateVectorStoreFile, hm, isOk] at h
    | some payload =>
      simp only [FilesB.CreateVectorStoreFile, hm] at h
      rw [if_pos hs] at h
      repeat' split at h
      all_goals simp [isOk] at h

theorem trace_FilesB_CreateVectorStoreFile (vectorStoreID fileID : String)
    (chunkingStrategy : List (String × GoValue)) (net : NetResult) :
    ((FilesB.CreateVectorStoreFile vectorStoreID fileID chunkingStrategy net).snd).length
      ≤ 1 := by
  cases hm : marshalGoValue (.map [("file_id", GoValue.str fileID),
      ("chunking_strategy", GoValue.map chunkingStrategy)]) with
  | none => simp [FilesB.CreateVectorStoreFile, hm]
  | some payload =>
    cases net with
    | transportError => simp [FilesB.CreateVectorStoreFile, hm]
    | success resp =>
      by_cases hs : resp.statusCode = 200 <;> simp [FilesB.CreateVectorStoreFile, hm, hs]
      all_goals repeat' split
      all_goals simp

theorem transport_FilesB_CreateVectorStoreFile (vectorStoreID fileID : String)
    (chunkingStrategy : List (String × GoValue)) :
    isOk (FilesB.CreateVectorStoreFile vectorStoreID fileID chunkingStrategy
      .transportError).fst = false := by
  cases hm : marshalGoValue (.map [("file_id", GoValue.str fileID),
      ("chunking_strategy", GoValue.map chunkingStrategy)]) <;>
    simp [FilesB.CreateVectorStoreFile, hm, isOk]

theorem statusFail_FilesB_CreateVectorStoreFile (vectorStoreID fileID : String)
    (chunkingStrategy : List (String × GoValue)) (resp : HttpResp)
    (hs : resp.statusCode ≠ 200) :
    isOk (FilesB.CreateVectorStoreFile vectorStoreID fileID chunkingStrategy
      (.success resp)).fst = false := by
  cases hm : marshalGoValue (.map [("file_id", GoValue.str fileID),
      ("chunking_strategy", GoValue.map chunkingStrategy)]) with
  | none => simp [FilesB.CreateVectorStoreFile, hm, isOk]
  | some payload =>
    simp only [FilesB.CreateVectorStoreFile, hm]
    rw [if_pos hs]
    repeat' split
    all_goals simp [isOk]

theorem presend_FilesB_CreateVectorStoreFile (vectorStoreID fileID : String)
    (chunkingStrategy : List (String × GoValue)) (net : NetResult)
    (hm : marshalGoValue (.map [("file_id", GoValue.str fileID),
        ("chunking_strategy", GoValue.map chunkingStrategy)]) = none) :
    isOk (FilesB.CreateVectorStoreFile vectorStoreID fileID chunkingStrategy net).fst
        = false ∧
    (FilesB.CreateVectorStoreFile vectorStoreID fileID chunkingStrategy net).snd = [] := by
  simp [FilesB.CreateVectorStoreFile, hm, isOk]

theorem gate_Msg_CreateMessage (p : Msg.CreateMessageParams) (resp : HttpResp)
    (h : isOk (Msg.CreateMessage p (.success resp)).fst = true) :
    resp.statusCode = 200 ∨ resp.statusCode = 201 := by
  by_cases h1 : p.ThreadID = ""
  · exfalso; simp [Msg.CreateMessage, h1, isOk] at h
  by_cases h2 : p.Role = ""
  · exfalso; simp [Msg.CreateMessage, h1, h2, isOk] at h
  by_cases h3 : p.Content = ""
  · exfalso; simp [Msg.CreateMessage, h1, h2, h3, isOk] at h
  by_cases hs1 : resp.statusCode = 200
  · exact .inl hs1
  by_cases hs2 : resp.statusCode = 201
  · exact .inr hs2
  exfalso; simp [Msg.CreateMessage, h1, h2, h3, hs1, hs2, isOk] at h

theorem trace_Msg_CreateMessage (p : Msg.CreateMessageParams) (net : NetResult) :
    ((Msg.CreateMessage p net).snd).length ≤ 1 := by
  by_cases h1 : p.ThreadID = "" <;> by_cases h2 : p.Role = "" <;>
    by_cases h3 : p.Content = "" <;> simp [Msg.CreateMessage, h1, h2, h3]
  cases net with
  | transportError => simp
  | success resp =>
    by_cases hs : resp.statusCode ≠ 200 ∧ resp.statusCode ≠ 201 <;> simp [hs] <;>
      (try split) <;> simp

theorem transport_Msg_CreateMessage (p : Msg.CreateMessageParams) :
    isOk (Msg.CreateMessage p .transportError).fst = false := by
  by_cases h1 : p.ThreadID = "" <;> by_cases h2 : p.Role = "" <;>
    by_cases h3 : p.Content = "" <;> simp [Msg.CreateMessage, h1, h2, h3, isOk]

theorem statusErr_Msg_CreateMessage (p : Msg.CreateMessageParams) (resp : HttpResp)
    (h1 : p.ThreadID ≠ "") (h2 : p.Role ≠ "") (h3 : p.Content ≠ "")
    (hs1 : resp.statusCode ≠ 200) (hs2 : resp.statusCode ≠ 201) :
    isStatusError (Msg.CreateMessage p (.success resp)).fst = true := by
  simp [Msg.CreateMessage, h1, h2, h3, hs1, hs2, isStatusError]

theorem presend_Msg_CreateMessage (p : Msg.CreateMessageParams) (net : NetResult)
    (h : p.ThreadID = "" ∨ p.Role = "" ∨ p.Content = "") :
    isOk (Msg.CreateMessage p net).fst = false ∧ (Msg.CreateMessage p net).snd = [] := by
  unfold Msg.CreateMessage
  by_cases h1 : p.ThreadID = "" <;> by_cases h2 : p.Role = "" <;>
    by_cases h3 : p.Content = "" <;> simp [h1, h2, h3, isOk] <;> tauto

/-- C1 (amended): every direct-HTTP client function returns a decoded
result only when the status check passes, and an error for every other
status; for every function that check is status = 200, except
`CreateMessage`, which accepts 200 and 201.  (`CreateEmbedding` delegates
its HTTP exchange to the SDK and performs no status check of its own.) -/
theorem c1_status_gate_per_function :
    (∀ (p : Msg.CreateMessageParams) (resp : HttpResp),
       isOk (Msg.CreateMessage p (.success resp)).fst = true → resp.statusCode = 200 ∨ resp.statusCode = 201) ∧
    (∀ (path : String) (content : List Nat) (resp : HttpResp),
       isOk (FilesA.UploadContent path content (.success resp)).fst = true → resp.statusCode = 200) ∧
    (∀ (fs : String → Option (List Nat)) (path : String) (resp : HttpResp),
       isOk (FilesA.UploadFile fs path (.success resp)).fst = true → resp.statusCode = 200) ∧
    (∀ (resp : HttpResp),
       isOk (FilesA.ListFiles (.success resp)).fst = true → resp.statusCode = 200) ∧
    (∀ (fileID : String) (resp : HttpResp),
       isOk (FilesA.RetrieveFile fileID (.success resp)).fst = true → resp.statusCode = 200) ∧
    (∀ (fileID : String) (resp : HttpResp),
       isOk (FilesA.DeleteFile fileID (.success resp)).fst = true → resp.statusCode = 200) ∧
    (∀ (vectorStoreID fileID : String) (chunkingStrategy : List (String × GoValue)) (resp : HttpResp),
       isOk (FilesB.CreateVectorStoreFile vectorStoreID fileID chunkingStrategy (.success resp)).fst = true → resp.statusCode = 200) ∧
    (∀ (vectorStoreID : String) (resp : HttpResp),
       isOk (FilesB.ListVectorStoreFiles vectorStoreID (.success resp)).fst = true → resp.statusCode = 200) ∧
    (∀ (vectorStoreID fileID : String) (resp : HttpResp),
       isOk (FilesB.RetrieveVectorStoreFile vectorStoreID fileID (.success resp)).fst = true → resp.statusCode = 200) ∧
    (∀ (vectorStoreID fileID : String) (resp : HttpResp),
       isOk (FilesB.DeleteVectorStoreFile vectorStoreID fileID (.success resp)).fst = true → resp.statusCode = 200) ∧
    (∀ (params : FilesC.CreateThreadParams) (resp : HttpResp),
       isOk (FilesC.CreateThread params (.success resp)).fst = true → resp.statusCode = 200) ∧
    (∀ (threadID : String) (limit : Int) (order after before runID : String) (resp : HttpResp),
       isOk (Msg.ListMessages threadID limit order after before runID (.success resp)).fst = true → resp.statusCode = 200) ∧
    (∀ (threadID : String) (params : Runs.CreateRunParams) («include» : List String) (resp : HttpResp),
       isOk (Runs.CreateRun threadID params «include» (.success resp)).fst = true → resp.statusCode = 200) ∧
    (∀ (threadID runID : String) (resp : HttpResp),
       isOk (Runs.RetrieveRun threadID runID (.success resp)).fst = true → resp.statusCode = 200) ∧
    (∀ (params : VS.CreateVectorStoreParams) (resp : HttpResp),
       isOk (VS.CreateVectorStore params (.success resp)).fst = true → resp.statusCode = 200) ∧
    (∀ (limit : Int) (order after before : String) (resp : HttpResp),
       isOk (VS.ListVectorStores limit order after before (.success resp)).fst = true → resp.statusCode = 200) ∧
    (∀ (vectorStoreID : String) (resp : HttpResp),
       isOk (VS.RetrieveVectorStore vectorStoreID (.success resp)).fst = true → resp.statusCode = 200) ∧
    (∀ (vectorStoreID : String) (resp : HttpResp),
       isOk (VS.DeleteVectorStore vectorStoreID (.success resp)).fst = true → resp.statusCode = 200) ∧
    (∀ (fileContent : Option (List Nat)) (resp : HttpResp),
       isOk (Emb.CreateVectorForFile fileContent (.success resp)).fst = true → resp.statusCode = 200) ∧
    (∀ (fs : String → Option (List Nat)) (filePath : String) (resp : HttpResp),
       isOk (Part0.UploadFile fs filePath (.success resp)).fst = true → resp.statusCode = 200) ∧
    (∀ (resp : HttpResp),
       isOk (Part0.ListFiles (.success resp)).fst = true → resp.statusCode = 200) ∧
    (∀ (fileID : String) (resp : HttpResp),
       isOk (Part0.RetrieveFile fileID (.success resp)).fst = true → resp.statusCode = 200) ∧
    (∀ (fileID : String) (resp : HttpResp),
       isOk (Part0.DeleteFile fileID (.success resp)).fst = true → resp.statusCode = 200) ∧
    (∀ (resp : HttpResp),
       isOk (Part1.ListAssistants (.success resp)).fst = true → resp.statusCode = 200) ∧
    (∀ (params : Part1.CreateAssistantParams) (resp : HttpResp),
       isOk (Part1.CreateAssistant params (.success resp)).fst = true → resp.statusCode = 200) ∧
    (∀ (assistantID : String) (resp : HttpResp),
       isOk (Part1.DeleteAssistant assistantID (.success resp)).fst = true → resp.statusCode = 200) ∧
    (∀ (threadID : String) (limit : Int) (order after before runID : String) (resp : HttpResp),
       isOk (Part2.ListMessages threadID limit order after before runID (.success resp)).fst = true → resp.statusCode = 200) :=
  ⟨gate_Msg_CreateMessage, gate_FilesA_UploadContent, gate_FilesA_UploadFile, gate_FilesA_ListFiles, gate_FilesA_RetrieveFile, gate_FilesA_DeleteFile, gate_FilesB_CreateVectorStoreFile, gate_FilesB_ListVectorStoreFiles, gate_FilesB_RetrieveVectorStoreFile, gate_FilesB_DeleteVectorStoreFile, gate_FilesC_CreateThread, gate_Msg_ListMessages, gate_Runs_CreateRun, gate_Runs_RetrieveRun, gate_VS_CreateVectorStore, gate_VS_ListVectorStores, gate_VS_RetrieveVectorStore, gate_VS_DeleteVectorStore, gate_Emb_CreateVectorForFile, gate_Part0_UploadFile, gate_Part0_ListFiles, gate_Part0_RetrieveFile, gate_Part0_DeleteFile, gate_Part1_ListAssistants, gate_Part1_CreateAssistant, gate_Part1_DeleteAssistant, gate_Part2_ListMessages⟩

/-- C8: no client function ever retries — every invocation of every
client function sends at most one request (HTTP or SDK call), whatever
the outcome. -/
theorem c8_at_most_one_request :
    (∀ (p : Msg.CreateMessageParams) (net : NetResult),
       ((Msg.CreateMessage p net).snd).length ≤ 1) ∧
    (∀ (path : String) (content : List Nat) (net : NetResult),
       ((FilesA.UploadContent path content net).snd).length ≤ 1) ∧
    (∀ (fs : String → Option (List Nat)) (path : String) (net : NetResult),
       ((FilesA.UploadFile fs path net).snd).length ≤ 1) ∧
    (∀ (net : NetResult),
       ((FilesA.ListFiles net).snd).length ≤ 1) ∧
    (∀ (fileID : String) (net : NetResult),
       ((FilesA.RetrieveFile fileID net).snd).length ≤ 1) ∧
    (∀ (fileID : String) (net : NetResult),
       ((FilesA.DeleteFile fileID net).snd).length ≤ 1) ∧
    (∀ (vectorStoreID fileID : String) (chunkingStrategy : List (String × GoValue)) (net : NetResult),
       ((FilesB.CreateVectorStoreFile vectorStoreID fileID chunkingStrategy net).snd).length ≤ 1) ∧
    (∀ (vectorStoreID : String) (net : NetResult),
       ((FilesB.ListVectorStoreFiles vectorStoreID net).snd).length ≤ 1) ∧
    (∀ (vectorStoreID fileID : String) (net : NetResult),
       ((FilesB.RetrieveVectorStoreFile vectorStoreID fileID net).snd).length ≤ 1) ∧
    (∀ (vectorStoreID fileID : String) (net : NetResult),
       ((FilesB.DeleteVectorStoreFile vectorStoreID fileID net).snd).length ≤ 1) ∧
    (∀ (params : FilesC.CreateThreadParams) (net : NetResult),
       ((FilesC.CreateThread params net).snd).length ≤ 1) ∧
    (∀ (threadID : String) (limit : Int) (order after before runID : String) (net : NetResult),
       ((Msg.ListMessages threadID limit order after before runID net).snd).length ≤ 1) ∧
    (∀ (threadID : String) (params : Runs.CreateRunParams) («include» : List String) (net : NetResult),
       ((Runs.CreateRun threadID params «include» net).snd).length ≤ 1) ∧
    (∀ (threadID runID : String) (net : NetResult),
       ((Runs.RetrieveRun threadID runID net).snd).length ≤ 1) ∧
    (∀ (params : VS.CreateVectorStoreParams) (net : NetResult),
       ((VS.CreateVectorStore params net).snd).length ≤ 1) ∧
    (∀ (limit : Int) (order after before : String) (net : NetResult),
       ((VS.ListVectorStores limit order after before net).snd).length ≤ 1) ∧
    (∀ (vectorStoreID : String) (net : NetResult),
       ((VS.RetrieveVectorStore vectorStoreID net).snd).length ≤ 1) ∧
    (∀ (vectorStoreID : String) (net : NetResult),
       ((VS.DeleteVectorStore vectorStoreID net).snd).length ≤ 1) ∧
    (∀ (fileContent : Option (List Nat)) (net : NetResult),
       ((Emb.CreateVectorForFile fileContent net).snd).length ≤ 1) ∧
    (∀ (fs : String → Option (List Nat)) (filePath : String) (net : NetResult),
       ((Part0.UploadFile fs filePath net).snd).length ≤ 1) ∧
    (∀ (net : NetResult),
       ((Part0.ListFiles net).snd).length ≤ 1) ∧
    (∀ (fileID : String) (net : NetResult),
       ((Part0.RetrieveFile fileID net).snd).length ≤ 1) ∧
    (∀ (fileID : String) (net : NetResult),
       ((Part0.DeleteFile fileID net).snd).length ≤ 1) ∧
    (∀ (net : NetResult),
       ((Part1.ListAssistants net).snd).length ≤ 1) ∧
    (∀ (params : Part1.CreateAssistantParams) (net : NetResult),
       ((Part1.CreateAssistant params net).snd).length ≤ 1) ∧
    (∀ (assistantID : String) (net : NetResult),
       ((Part1.DeleteAssistant assistantID net).snd).length ≤ 1) ∧
    (∀ (threadID : String) (limit : Int) (order after before runID : String) (net : NetResult),
       ((Part2.ListMessages threadID limit order after before runID net).snd).length ≤ 1) ∧
    (∀ (fileContent : Option (List Nat)) (api : Emb.SdkResult),
       ((Emb.CreateEmbedding fileContent api).snd).length ≤ 1) :=
  ⟨trace_Msg_CreateMessage, trace_FilesA_UploadContent, trace_FilesA_UploadFile, trace_FilesA_ListFiles, trace_FilesA_RetrieveFile, trace_FilesA_DeleteFile, trace_FilesB_CreateVectorStoreFile, trace_FilesB_ListVectorStoreFiles, trace_FilesB_RetrieveVectorStoreFile, trace_FilesB_DeleteVectorStoreFile, trace_FilesC_CreateThread, trace_Msg_ListMessages, trace_Runs_CreateRun, trace_Runs_RetrieveRun, trace_VS_CreateVectorStore, trace_VS_ListVectorStores, trace_VS_RetrieveVectorStore, trace_VS_DeleteVectorStore, trace_Emb_CreateVectorForFile, trace_Part0_UploadFile, trace_Part0_ListFiles, trace_Part0_RetrieveFile, trace_Part0_DeleteFile, trace_Part1_ListAssistants, trace_Part1_CreateAssistant, trace_Part1_DeleteAssistant, trace_Part2_ListMessages, trace_Emb_CreateEmbedding⟩

/-- C9: the pipeline is linear and fails fast, for every client
function: a pre-send failure (parameter validation, file read, payload
marshalling) returns an error with no request sent; a transport error
returns an error; and a failed status check returns the status-check
error itself — no response decode takes place (for `CreateVectorStoreFile`
the non-200 path instead decodes the API error envelope; it too never
returns a result). -/
theorem c9_linear_failfast_pipeline :
    (∀ (p : Msg.CreateMessageParams) (net : NetResult),
       p.ThreadID = "" ∨ p.Role = "" ∨ p.Content = "" →
       isOk (Msg.CreateMessage p net).fst = false ∧ (Msg.CreateMessage p net).snd = []) ∧
    (∀ (fs : String → Option (List Nat)) (path : String) (net : NetResult),
       fs path = none →
       isOk (FilesA.UploadFile fs path net).fst = false ∧
       (FilesA.UploadFile fs path net).snd = []) ∧
    (∀ (fs : String → Option (List Nat)) (filePath : String) (net : NetResult),
       fs filePath = none →
       isOk (Part0.UploadFile fs filePath net).fst = false ∧
       (Part0.UploadFile fs filePath net).snd = []) ∧
    (∀ (api : Emb.SdkResult),
       isOk (Emb.CreateEmbedding none api).fst = false ∧
       (Emb.CreateEmbedding none api).snd = []) ∧
    (∀ (net : NetResult),
       isOk (Emb.CreateVectorForFile none net).fst = false ∧
       (Emb.CreateVectorForFile none net).snd = []) ∧
    (∀ (params : FilesC.CreateThreadParams) (net : NetResult),
       FilesC.marshalCreateThreadParams params = none →
       isOk (FilesC.CreateThread params net).fst = false ∧
       (FilesC.CreateThread params net).snd = []) ∧
    (∀ (threadID : String) (params : Runs.CreateRunParams) («include» : List String)
       (net : NetResult), Runs.marshalCreateRunParams params = none →
       isOk (Runs.CreateRun threadID params «include» net).fst = false ∧
       (Runs.CreateRun threadID params «include» net).snd = []) ∧
    (∀ (params : Part1.CreateAssistantParams) (net : NetResult),
       Part1.marshalCreateAssistantParams params = none →
       isOk (Part1.CreateAssistant params net).fst = false ∧
       (Part1.CreateAssistant params net).snd = []) ∧
    (∀ (vectorStoreID fileID : String) (chunkingStrategy : List (String × GoValue))
       (net : NetResult),
       marshalGoValue (.map [("file_id", GoValue.str fileID),
         ("chunking_strategy", GoValue.map chunkingStrategy)]) = none →
       isOk (FilesB.CreateVectorStoreFile vectorStoreID fileID chunkingStrategy net).fst
           = false ∧
       (FilesB.CreateVectorStoreFile vectorStoreID fileID chunkingStrategy net).snd = []) ∧
    (∀ (p : Msg.CreateMessageParams), isOk ((Msg.CreateMessage p .transportError)).fst = false) ∧
    (∀ (path : String) (content : List Nat), isOk ((FilesA.UploadContent path content .transportError)).fst = false) ∧
    (∀ (fs : String → Option (List Nat)) (path : String), isOk ((FilesA.UploadFile fs path .transportError)).fst = false) ∧
    (isOk ((FilesA.ListFiles .transportError)).fst = false) ∧
    (∀ (fileID : String), isOk ((FilesA.RetrieveFile fileID .transportError)).fst = false) ∧
    (∀ (fileID : String), isOk ((FilesA.DeleteFile fileID .transportError)).fst = false) ∧
    (∀ (vectorStoreID fileID : String) (chunkingStrategy : List (String × GoValue)), isOk ((FilesB.CreateVectorStoreFile vectorStoreID fileID chunkingStrategy .transportError)).fst = false) ∧
    (∀ (vectorStoreID : String), isOk ((FilesB.ListVectorStoreFiles vectorStoreID .transportError)).fst = false) ∧
    (∀ (vectorStoreID fileID : String), isOk ((FilesB.RetrieveVectorStoreFile vectorStoreID fileID .transportError)).fst = false) ∧
    (∀ (vectorStoreID fileID : String), isOk ((FilesB.DeleteVectorStoreFile vectorStoreID fileID .transportError)).fst = false) ∧
    (∀ (params : FilesC.CreateThreadParams), isOk ((FilesC.CreateThread params .transportError)).fst = false) ∧
    (∀ (threadID : String) (limit : Int) (order after before runID : String), isOk ((Msg.ListMessages threadID limit order after before runID .transportError)).fst = false) ∧
    (∀ (threadID : String) (params : Runs.CreateRunParams) («include» : List String), isOk ((Runs.CreateRun threadID params «include» .transportError)).fst = false) ∧
    (∀ (threadID runID : String), isOk ((Runs.RetrieveRun threadID runID .transportError)).fst = false) ∧
    (∀ (params : VS.CreateVectorStoreParams), isOk ((VS.CreateVectorStore params .transportError)).fst = false) ∧
    (∀ (limit : Int) (order after before : String), isOk ((VS.ListVectorStores limit order after before .transportError)).fst = false) ∧
    (∀ (vectorStoreID : String), isOk ((VS.RetrieveVectorStore vectorStoreID .transportError)).fst = false) ∧
    (∀ (vectorStoreID : String), isOk ((VS.DeleteVectorStore vectorStoreID .transportError)).fst = false) ∧
    (∀ (fileContent : Option (List Nat)), isOk ((Emb.CreateVectorForFile fileContent .transportError)).fst = false) ∧
    (∀ (fs : String → Option (List Nat)) (filePath : String), isOk ((Part0.UploadFile fs filePath .transportError)).fst = false) ∧
    (isOk ((Part0.ListFiles .transportError)).fst = false) ∧
    (∀ (fileID : String), isOk ((Part0.RetrieveFile fileID .transportError)).fst = false) ∧
    (∀ (fileID : String), isOk ((Part0.DeleteFile fileID .transportError)).fst = false) ∧
    (isOk ((Part1.ListAssistants .transportError)).fst = false) ∧
    (∀ (params : Part1.CreateAssistantParams), isOk ((Part1.CreateAssistant params .transportError)).fst = false) ∧
    (∀ (assistantID : String), isOk ((Part1.DeleteAssistant assistantID .transportError)).fst = false) ∧
    (∀ (threadID : String) (limit : Int) (order after before runID : String), isOk ((Part2.ListMessages threadID limit order after before runID .transportError)).fst = false) ∧
    (∀ (content : List Nat),
       isOk (Emb.CreateEmbedding (some content) .sdkError).fst = false) ∧
    (∀ (p : Msg.CreateMessageParams) (resp : HttpResp),
       p.ThreadID ≠ "" → p.Role ≠ "" → p.Content ≠ "" →
       resp.statusCode ≠ 200 → resp.statusCode ≠ 201 →
       isStatusError (Msg.CreateMessage p (.success resp)).fst = true) ∧
    (∀ (path : String) (content : List Nat) (resp : HttpResp), resp.statusCode ≠ 200 →
       isStatusError (FilesA.UploadContent path content (.success resp)).fst = true) ∧
    (∀ (fs : String → Option (List Nat)) (path : String) (content : List Nat),
       fs path = some content → ∀ (resp : HttpResp), resp.statusCode ≠ 200 →
       isStatusError (FilesA.UploadFile fs path (.success resp)).fst = true) ∧
    (∀ (resp : HttpResp), resp.statusCode ≠ 200 →
       isStatusError (FilesA.ListFiles (.success resp)).fst = true) ∧
    (∀ (fileID : String) (resp : HttpResp), resp.statusCode ≠ 200 →
       isStatusError (FilesA.RetrieveFile fileID (.success resp)).fst = true) ∧
    (∀ (fileID : String) (resp : HttpResp), resp.statusCode ≠ 200 →
       isStatusError (FilesA.DeleteFile fileID (.success resp)).fst = true) ∧
    (∀ (vectorStoreID fileID : String) (chunkingStrategy : List (String × GoValue))
       (resp : HttpResp), resp.statusCode ≠ 200 →
       isOk (FilesB.CreateVectorStoreFile vectorStoreID fileID chunkingStrategy
         (.success resp)).fst = false) ∧
    (∀ (vectorStoreID : String) (resp : HttpResp), resp.statusCode ≠ 200 →
       isStatusError (FilesB.ListVectorStoreFiles vectorStoreID (.success resp)).fst = true) ∧
    (∀ (vectorStoreID fileID : String) (resp : HttpResp), resp.statusCode ≠ 200 →
       isStatusError (FilesB.RetrieveVectorStoreFile vectorStoreID fileID (.success resp)).fst = true) ∧
    (∀ (vectorStoreID fileID : String) (resp : HttpResp), resp.statusCode ≠ 200 →
       isStatusError (FilesB.DeleteVectorStoreFile vectorStoreID fileID (.success resp)).fst = true) ∧
    (∀ (params : FilesC.CreateThreadParams) (payload : Json),
       FilesC.marshalCreateThreadParams params = some payload →
       ∀ (resp : HttpResp), resp.statusCode ≠ 200 →
       isStatusError (FilesC.CreateThread params (.success resp)).fst = true) ∧
    (∀ (threadID : String) (limit : Int) (order after before runID : String) (resp : HttpResp), resp.statusCode ≠ 200 →
       isStatusError (Msg.ListMessages threadID limit order after before runID (.success resp)).fst = true) ∧
    (∀ (threadID : String) (params : Runs.CreateRunParams) («include» : List String)
       (payload : Json), Runs.marshalCreateRunParams params = some payload →
       ∀ (resp : HttpResp), resp.statusCode ≠ 200 →
       isStatusError (Runs.CreateRun threadID params «include» (.success resp)).fst = true) ∧
    (∀ (threadID runID : String) (resp : HttpResp), resp.statusCode ≠ 200 →
       isStatusError (Runs.RetrieveRun threadID runID (.success resp)).fst = true) ∧
    (∀ (params : VS.CreateVectorStoreParams) (resp : HttpResp), resp.statusCode ≠ 200 →
       isStatusError (VS.CreateVectorStore params (.success resp)).fst = true) ∧
    (∀ (limit : Int) (order after before : String) (resp : HttpResp), resp.statusCode ≠ 200 →
       isStatusError (VS.ListVectorStores limit order after before (.success resp)).fst = true) ∧
    (∀ (vectorStoreID : String) (resp : HttpResp), resp.statusCode ≠ 200 →
       isStatusError (VS.RetrieveVectorStore vectorStoreID (.success resp)).fst = true) ∧
    (∀ (vectorStoreID : String) (resp : HttpResp), resp.statusCode ≠ 200 →
       isStatusError (VS.DeleteVectorStore vectorStoreID (.success resp)).fst = true) ∧
    (∀ (content : List Nat) (resp : HttpResp), resp.statusCode ≠ 200 →
       isStatusError (Emb.CreateVectorForFile (some content) (.success resp)).fst = true) ∧
    (∀ (fs : String → Option (List Nat)) (filePath : String) (content : List Nat),
       fs filePath = some content → ∀ (resp : HttpResp), resp.statusCode ≠ 200 →
       isStatusError (Part0.UploadFile fs filePath (.success resp)).fst = true) ∧
    (∀ (resp : HttpResp), resp.statusCode ≠ 200 →
       isStatusError (Part0.ListFiles (.success resp)).fst = true) ∧
    (∀ (fileID : String) (resp : HttpResp), resp.statusCode ≠ 200 →
       isStatusError (Part0.RetrieveFile fileID (.success resp)).fst = true) ∧
    (∀ (fileID : String) (resp : HttpResp), resp.statusCode ≠ 200 →
       isStatusError (Part0.DeleteFile fileID (.success resp)).fst = true) ∧
    (∀ (resp : HttpResp), resp.statusCode ≠ 200 →
       isStatusError (Part1.ListAssistants (.success resp)).fst = true) ∧
    (∀ (params : Part1.CreateAssistantParams) (payload : Json),
       Part1.marshalCreateAssistantParams params = some payload →
       ∀ (resp : HttpResp), resp.statusCode ≠ 200 →
       isStatusError (Part1.CreateAssistant params (.success resp)).fst = true) ∧
    (∀ (assistantID : String) (resp : HttpResp), resp.statusCode ≠ 200 →
       isStatusError (Part1.DeleteAssistant assistantID (.success resp)).fst = true) ∧
    (∀ (threadID : String) (limit : Int) (order after before runID : String) (resp : HttpResp), resp.statusCode ≠ 200 →
       isStatusError (Part2.ListMessages threadID limit order after before runID (.success resp)).fst = true) :=
  ⟨presend_Msg_CreateMessage,
   presend_FilesA_UploadFile,
   presend_Part0_UploadFile,
   presend_Emb_CreateEmbedding,
   presend_Emb_CreateVectorForFile,
   presend_FilesC_CreateThread,
   presend_Runs_CreateRun,
   presend_Part1_CreateAssistant,
   presend_FilesB_CreateVectorStoreFile,
   transport_Msg_CreateMessage,
   transport_FilesA_UploadContent,
   transport_FilesA_UploadFile,
   transport_FilesA_ListFiles,
   transport_FilesA_RetrieveFile,
   transport_FilesA_DeleteFile,
   transport_FilesB_CreateVectorStoreFile,
   transport_FilesB_ListVectorStoreFiles,
   transport_FilesB_RetrieveVectorStoreFile,
   transport_FilesB_DeleteVectorStoreFile,
   transport_FilesC_CreateThread,
   transport_Msg_ListMessages,
   transport_Runs_CreateRun,
   transport_Runs_RetrieveRun,
   transport_VS_CreateVectorStore,
   transport_VS_ListVectorStores,
   transport_VS_RetrieveVectorStore,
   transport_VS_DeleteVectorStore,
   transport_Emb_CreateVectorForFile,
   transport_Part0_UploadFile,
   transport_Part0_ListFiles,
   transport_Part0_RetrieveFile,
   transport_Part0_DeleteFile,
   transport_Part1_ListAssistants,
   transport_Part1_CreateAssistant,
   transport_Part1_DeleteAssistant,
   transport_Part2_ListMessages,
   sdkErr_Emb_CreateEmbedding,
   statusErr_Msg_CreateMessage,
   statusErr_FilesA_UploadContent,
   statusErr_FilesA_UploadFile,
   statusErr_FilesA_ListFiles,
   statusErr_FilesA_RetrieveFile,
   statusErr_FilesA_DeleteFile,
   statusFail_FilesB_CreateVectorStoreFile,
   statusErr_FilesB_ListVectorStoreFiles,
   statusErr_FilesB_RetrieveVectorStoreFile,
   statusErr_FilesB_DeleteVectorStoreFile,
   statusErr_FilesC_CreateThread,
   statusErr_Msg_ListMessages,
   statusErr_Runs_CreateRun,
   statusErr_Runs_RetrieveRun,
   statusErr_VS_CreateVectorStore,
   statusErr_VS_ListVectorStores,
   statusErr_VS_RetrieveVectorStore,
   statusErr_VS_DeleteVectorStore,
   statusErr_Emb_CreateVectorForFile,
   statusErr_Part0_UploadFile,
   statusErr_Part0_ListFiles,
   statusErr_Part0_RetrieveFile,
   statusErr_Part0_DeleteFile,
   statusErr_Part1_ListAssistants,
   statusErr_Part1_CreateAssistant,
   statusErr_Part1_DeleteAssistant,
   statusErr_Part2_ListMessages⟩

/-- C1 counterexample: `CreateMessage` returns a decoded result (nil
error) for HTTP status 201, which is not 200 — so it is false that every
client function returns an error for any status other than 200. -/
theorem c1_counterexample :
    (201 : Nat) ≠ 200 ∧
    isOk (Msg.CreateMessage ⟨"t", "user", "hi"⟩
        (.success ⟨201, "201 Created", Json.obj [("data", Json.null)]⟩)).fst = true :=
  ⟨by decide, rfl⟩

/-- C1 witness: `CreateMessage` succeeds at 201 (hence 200-or-201), and
`UploadContent` succeeds only at 200. -/
theorem c1_status_gate_per_function_witness :
    ((⟨201, "201 Created", Json.obj [("data", Json.null)]⟩ : HttpResp).statusCode = 200 ∨
     (⟨201, "201 Created", Json.obj [("data", Json.null)]⟩ : HttpResp).statusCode = 201) ∧
    (⟨200, "200 OK", Json.obj [("id", Json.str "f")]⟩ : HttpResp).statusCode = 200 :=
  ⟨c1_status_gate_per_function.1 ⟨"t", "user", "hi"⟩ _ rfl,
   c1_status_gate_per_function.2.1 "p" [] _ rfl⟩

/-- C9 witness: invalid `CreateMessage` parameters and an unmarshallable
`CreateRun` payload both produce an error with no request sent. -/
theorem c9_linear_failfast_pipeline_witness :
    (isOk (Msg.CreateMessage ⟨"", "user", "hi"⟩ .transportError).fst = false ∧
     (Msg.CreateMessage ⟨"", "user", "hi"⟩ .transportError).snd = []) ∧
    (isOk (Runs.CreateRun "t" ⟨"a", none, none, none, [], [[("x", GoValue.func)]], [],
        none, none, none, none, none, none, none, none, none⟩ [] .transportError).fst
          = false ∧
     (Runs.CreateRun "t" ⟨"a", none, none, none, [], [[("x", GoValue.func)]], [],
        none, none, none, none, none, none, none, none, none⟩ [] .transportError).snd
          = []) :=
  ⟨c9_linear_failfast_pipeline.1 ⟨"", "user", "hi"⟩ .transportError (Or.inl rfl),
   c9_linear_failfast_pipeline.2.2.2.2.2.2.1 "t" _ [] .transportError rfl⟩

end GoOpenAI
